import Mathlib

/-!
# yuzu configuration widgets: the binding / override engine

A shallow embedding of `src/yuzu/configuration/shared_widget.cpp`
(namespace `ConfigurationShared`) together with proofs about it.

* C++ closures (`std::function` values) are defunctionalised: every lambda of the
  source is a constructor that carries its captured variables, and a `run`
  function interprets it on the current state.
* Objects are addressed explicitly: a `Settings::BasicSetting*` is a natural
  number indexing the settings store, `nullptr` is `none`.
* Exceptions and fatal faults are values of `Error` in the `Except` monad.
* Toolkit objects (`QCheckBox`, `QLineEdit`, ...) are records of the properties
  the source reads or writes, with the signal connections made by the source.
-/

set_option autoImplicit false

namespace ConfigurationShared

/-! ## Faults -/

/-- The ways a call in this file can fail to return: the two exceptions of the
`std::sto*` family and of `std::vector::at`, a dereferenced null pointer, and
the `UNIMPLEMENTED()` assertion. -/
inductive Error where
  | invalid_argument
  | out_of_range
  | null_dereference
  | unimplemented
  deriving DecidableEq, Repr

deriving instance DecidableEq for Except

/-! ## The C++ standard library functions used by the source -/

/-- The `isspace` test of the "C" locale, used by `strtol` to skip leading blanks. -/
def isspace (c : Char) : Bool :=
  c = ' ' || c = '\t' || c = '\n' || c = '\x0b' || c = '\x0c' || c = '\r'

/-- The value of `c` as a hexadecimal digit, if it is one. -/
def hexValue (c : Char) : Option Nat :=
  if '0' ≤ c ∧ c ≤ '9' then some (c.toNat - 48)
  else if 'a' ≤ c ∧ c ≤ 'f' then some (c.toNat - 87)
  else if 'A' ≤ c ∧ c ≤ 'F' then some (c.toNat - 55)
  else none

/-- The value of `c` as a digit of the given base (at most 16), if it is one. -/
def digitVal (base : Nat) (c : Char) : Option Nat :=
  match hexValue c with
  | some d => if d < base then some d else none
  | none => none

/-- Accumulate the longest run of leading digits of the text, most significant
first, on top of `acc`; parsing stops at the first character that is no digit. -/
def scanDigits (base : Nat) : List Char → Nat → Nat
  | [], acc => acc
  | c :: cs, acc =>
    match digitVal base c with
    | some d => scanDigits base cs (acc * base + d)
    | none => acc

/-- Whether the text starts with a digit of the base. -/
def startsWithDigit (base : Nat) : List Char → Bool
  | [] => false
  | c :: _ => (digitVal base c).isSome

/-- The sign and magnitude `strtol` and its relatives read from a text: leading
blanks are skipped, one sign is optional, in base 16 a `0x` before a hex digit
is skipped, then the longest run of digits is read. `none` when no digit is
there (no conversion could be performed). -/
def scanInteger (base : Nat) (s : List Char) : Option (Bool × Nat) :=
  let s1 := s.dropWhile isspace
  let neg : Bool := decide (s1.head? = some '-')
  let s2 := if s1.head? = some '-' ∨ s1.head? = some '+' then s1.tail else s1
  let s3 :=
    if base = 16 ∧ s2.head? = some '0' ∧
        (s2.tail.head? = some 'x' ∨ s2.tail.head? = some 'X') ∧
        startsWithDigit 16 s2.tail.tail = true then
      s2.tail.tail
    else s2
  if startsWithDigit base s3 then some (neg, scanDigits base s3 0) else none

/-- The signed value of a sign and a magnitude. -/
def signedValue (p : Bool × Nat) : Int :=
  if p.1 then -(p.2 : Int) else (p.2 : Int)

/-- The call `std::stoi(str)`: `int` is 32 bits wide. -/
def stoi (str : String) : Except Error Int :=
  match scanInteger 10 str.toList with
  | none => .error .invalid_argument
  | some p =>
    let v := signedValue p
    if -2147483648 ≤ v ∧ v ≤ 2147483647 then .ok v else .error .out_of_range

/-- The call `std::stoll(str)`: `long long` is 64 bits wide. -/
def stoll (str : String) : Except Error Int :=
  match scanInteger 10 str.toList with
  | none => .error .invalid_argument
  | some p =>
    let v := signedValue p
    if -9223372036854775808 ≤ v ∧ v ≤ 9223372036854775807 then .ok v
    else .error .out_of_range

/-- The call `std::stoul(str, nullptr, 16)` with a 64-bit `unsigned long`: a
magnitude that does not fit is out of range, a minus sign negates the value in
unsigned arithmetic. -/
def stoul16 (str : String) : Except Error Nat :=
  match scanInteger 16 str.toList with
  | none => .error .invalid_argument
  | some (neg, m) =>
    if 18446744073709551615 < m then .error .out_of_range
    else if neg then .ok ((18446744073709551616 - m) % 18446744073709551616)
    else .ok m

/-- The digits of `n` in the given base, most significant first, lower case;
`fuel` bounds the number of digits produced. -/
def natDigits (base : Nat) : Nat → Nat → List Char
  | 0, _ => []
  | fuel + 1, n =>
    if n < base then [Nat.digitChar n]
    else natDigits base fuel (n / base) ++ [Nat.digitChar (n % base)]

/-- The decimal digits of a natural number. -/
def decimal (n : Nat) : List Char := natDigits 10 (n + 1) n

/-- The call `std::to_string(v)` for an integer `v`. -/
def to_string (v : Int) : String :=
  if v < 0 then String.mk ('-' :: decimal v.natAbs) else String.mk (decimal v.natAbs)

/-- The call `fmt::format("{:08x}", v)` for an `int`: lower-case hexadecimal,
sign-aware zero padding to a width of eight characters. -/
def format_08x (v : Int) : String :=
  let digits := natDigits 16 (v.natAbs + 1) v.natAbs
  if v < 0 then
    String.mk ('-' :: (List.replicate (7 - digits.length) '0' ++ digits))
  else
    String.mk (List.replicate (8 - digits.length) '0' ++ digits)

/-- The conversion of an `int` to `u32` (reduction modulo `2^32`). -/
def to_u32 (v : Int) : Nat := (v % 4294967296).toNat

/-! ## The settings store -/

/-- The `std::type_index` values the source compares against (`typeid(bool)`,
`typeid(u32)`, ...); `other` stands for every further type (enumerations,
floating point, ...). -/
inductive TypeIndex where
  | bool | u8 | u16 | u32 | int | s64 | string
  | other (tag : Nat)
  deriving DecidableEq, Repr

/-- Modelled from the spec: `Settings::BasicSetting` (declared in
`common/settings.h`), the external typed configuration item. Each field is the
answer of the accessor of the same name: identity, label, type tag, whether
the type is an enumeration, the current and the global string representation,
the string bounds, and the switchable, using-global, runtime-modifiable and
save flags. -/
structure BasicSetting where
  Id : Nat
  GetLabel : String
  TypeId : TypeIndex
  IsEnum : Bool
  ToString : String
  ToStringGlobal : String
  MinVal : String
  MaxVal : String
  Switchable : Bool
  UsingGlobal : Bool
  RuntimeModfiable : Bool
  Save : Bool
  deriving DecidableEq, Repr

/-- Modelled from the spec: `BasicSetting::LoadString`, the typed string
setter; it replaces the current string representation. -/
def BasicSetting.LoadString (s : BasicSetting) (load : String) : BasicSetting :=
  { s with ToString := load }

/-- Modelled from the spec: `BasicSetting::SetGlobal`, the setter of the
global-versus-override flag. -/
def BasicSetting.SetGlobal (s : BasicSetting) (global : Bool) : BasicSetting :=
  { s with UsingGlobal := global }

/-- The settings store: the object behind every `BasicSetting*`. -/
abbrev Store := Nat → BasicSetting

/-- The call `p->LoadString(load)` on the store. -/
def Store.LoadString (m : Store) (p : Nat) (load : String) : Store :=
  Function.update m p ((m p).LoadString load)

/-- The call `p->SetGlobal(global)` on the store. -/
def Store.SetGlobal (m : Store) (p : Nat) (global : Bool) : Store :=
  Function.update m p ((m p).SetGlobal global)

/-- Modelled from the spec: the `RequestType` enumeration of
`shared_widget.h`, the requested presentation. The enumerators are the ones
this file names; `MaxEnum` stands for any enumerator it does not name. -/
inductive RequestType where
  | Default | ComboBox | SpinBox | Slider | ReverseSlider | LineEdit | HexEdit
  | DateTimeEdit | MaxEnum
  deriving DecidableEq, Repr

/-- An enumeration table (`ComboboxTranslations`): pairs of a raw `u32` value
and a display name. -/
abbrev ComboboxTranslations := List (Nat × String)

/-- The tables by type (`ComboboxTranslationMap`). -/
abbrev ComboboxTranslationMap := List (TypeIndex × ComboboxTranslations)

/-- The label and tooltip by setting identity (`TranslationMap`). -/
abbrev TranslationMap := List (Nat × (String × String))

/-- The dialog-wide context read through global functions:
`Settings::IsConfiguringGlobal()` and `QDateTime::currentSecsSinceEpoch()`. -/
structure Env where
  IsConfiguringGlobal : Bool
  currentSecsSinceEpoch : Int
  deriving DecidableEq, Repr

/-! ## Closures of the source, defunctionalised -/

/-- The `touch` closures: the initial `[]() {}` and the `[this]` lambda of
`SetupComponent` that enables and shows the restore button. -/
inductive Touch where
  | noop
  | reveal
  deriving DecidableEq, Repr

/-- The serializer closures, one per lambda assigned to a `serializer`
reference; `combobox` carries the captured `enumeration`. -/
inductive Serializer where
  | empty
  | checkBox
  | combobox (enumeration : ComboboxTranslations)
  | lineEdit
  | slider
  | spinBox
  | hexEdit
  | dateTimeEdit
  deriving DecidableEq, Repr

/-- The restore closures, one per lambda assigned to a `restore_func`
reference, with their captured variables. -/
inductive RestoreFunc where
  | noop
  | checkBox (bool_setting : Nat)
  | combobox (enumeration : ComboboxTranslations)
  | lineEdit
  | slider
  | spinBox
  | hexEdit
  | dateTimeEdit (restrict : Bool) (current_time : Int)
  deriving DecidableEq, Repr

/-- The `load_func` closures: the initial `[]() {}` of the constructor and the
two lambdas of `SetupComponent` with their captured variables. -/
inductive LoadFunc where
  | noop
  | configuringGlobal (serializer checkbox_serializer : Serializer)
      (require_checkbox : Bool) (other_setting : Option Nat)
  | configuringCustom (serializer : Serializer) (require_checkbox : Bool)
      (checkbox_serializer : Serializer) (other_setting : Option Nat)
  deriving DecidableEq, Repr

/-- A commit callback of the apply registry: the lambda
`[load_func, setting_](bool powered_on)` pushed by the constructor. `this_` is
the address of the `Widget` whose members `load_func` reads. -/
structure ApplyFunc where
  this_ : Nat
  load_func : LoadFunc
  setting_ : Nat
  deriving DecidableEq, Repr

/-! ## Toolkit objects -/

/-- A `QPushButton`: its object name (the counter value in `RestoreButton%1`),
whether it is enabled (`isEnabled()`), whether it is not hidden (the flag set
by `setVisible`), and the slot connected to `clicked` (the captured
`restore_func` and `checkbox_restore_func`). -/
structure QPushButton where
  objectName : Nat
  enabled : Bool
  visible : Bool
  clicked : Option (RestoreFunc × RestoreFunc)
  deriving DecidableEq, Repr

/-- A `QCheckBox`: its label, whether its check state is `Checked`, whether it
is enabled (`isEnabled()`), and the slot connected to `clicked`. -/
structure QCheckBox where
  text : String
  checked : Bool
  enabled : Bool
  clicked : Option Touch
  deriving DecidableEq, Repr

/-- A `QComboBox`: the item texts, the current index (`-1` when there is no
current item) and the slot connected to `activated`. -/
structure QComboBox where
  items : List String
  currentIndex : Int
  activated : Option Touch
  deriving DecidableEq, Repr

/-- A `QLineEdit`: the text, the maximum length, whether the validator for
`^[0-9a-fA-F]{0,8}$` is installed, and the slot connected to `textChanged`. -/
structure QLineEdit where
  text : String
  maxLength : Nat
  hexValidator : Bool
  textChanged : Option Touch
  deriving DecidableEq, Repr

/-- A `QSlider`: range, value, inverted appearance, and the slot connected to
`sliderReleased`. The feedback label fed by `valueChanged` is display only and
computed in floating point; it is not part of the record. -/
structure QSlider where
  minimum : Int
  maximum : Int
  value : Int
  invertedAppearance : Bool
  sliderReleased : Option Touch
  deriving DecidableEq, Repr

/-- A `QSpinBox`: range, value, suffix, and the `touch` captured by the slot
connected to `valueChanged`. -/
structure QSpinBox where
  minimum : Int
  maximum : Int
  value : Int
  suffix : String
  valueChanged : Option Touch
  deriving DecidableEq, Repr

/-- A `QDateTimeEdit`, in seconds since the epoch: range, value, and the slot
connected to `editingFinished` (the captured `restrict`, `current_time` and
`touch`). -/
structure QDateTimeEdit where
  minimum : Int
  maximum : Int
  dateTime : Int
  editingFinished : Option (Bool × Int × Touch)
  deriving DecidableEq, Repr

/-- The child widgets a layout can hold. -/
inductive Component where
  | label
  | checkbox (k : Nat)
  | combobox
  | line_edit
  | slider
  | spinbox
  | date_time_edit
  | restore_button
  deriving DecidableEq, Repr

/-- The members of a `Widget`. The pointer members start out null and
`created` starts out false; `checkboxes` holds the `QCheckBox` objects created
so far and the member `checkbox` points at one of them. The controls are
children of the `Widget`; `enabled` is what `isEnabled()` reports, for the
`Widget` and for each child. -/
structure Widget where
  setting : Nat
  runtime_lock : Bool
  translations : TranslationMap
  combobox_enumerations : ComboboxTranslationMap
  created : Bool
  checkboxes : List QCheckBox
  checkbox : Option Nat
  qt_label : Option String
  combobox : Option QComboBox
  line_edit : Option QLineEdit
  slider : Option QSlider
  spinbox : Option QSpinBox
  date_time_edit : Option QDateTimeEdit
  restore_button : Option QPushButton
  layout : List Component
  enabled : Bool
  visible : Bool
  toolTip : String
  deriving DecidableEq, Repr

/-- Modelled from the spec: the member initialisers of `shared_widget.h`: a
`Widget` before the constructor body runs, with the reference members bound
and every other member in its initial state. A new `QWidget` is enabled and
visible; the parent handed to the constructor is taken to be enabled. -/
def Widget.init (setting_ : Nat) (translations_ : TranslationMap)
    (combobox_translations_ : ComboboxTranslationMap) (runtime_lock_ : Bool) : Widget :=
  { setting := setting_, runtime_lock := runtime_lock_, translations := translations_,
    combobox_enumerations := combobox_translations_, created := false,
    checkboxes := [], checkbox := none, qt_label := none, combobox := none,
    line_edit := none, slider := none, spinbox := none, date_time_edit := none,
    restore_button := none, layout := [], enabled := true, visible := true, toolTip := "" }

/-- The state a member function of `Widget` runs on: the settings store, the
static `restore_button_count`, the apply registry `apply_funcs`, and `*this`. -/
structure State where
  settings : Store
  restore_button_count : Nat
  apply_funcs : List ApplyFunc
  self : Widget

/-- Dereference a pointer. -/
def deref {α : Type} : Option α → Except Error α
  | some a => .ok a
  | none => .error .null_dereference

/-- The setting the member reference `setting` is bound to. -/
def State.setting (st : State) : BasicSetting := st.settings st.self.setting

/-- The `QCheckBox` the member `checkbox` points at. -/
def Widget.checkboxObj (w : Widget) : Except Error QCheckBox :=
  match w.checkbox with
  | none => .error .null_dereference
  | some k => deref w.checkboxes[k]?

/-! ## Toolkit operations -/

/-- The toolkit's `qBound(lo, v, hi)`. -/
def qBound (lo v hi : Int) : Int := max lo (min hi v)

/-- A fresh `QSlider`: range 0 to 99, value 0. -/
def QSlider.new : QSlider :=
  { minimum := 0, maximum := 99, value := 0, invertedAppearance := false,
    sliderReleased := none }

/-- The call `QAbstractSlider::setRange`: the maximum is raised to the minimum
when below it, and the value is bounded again. -/
def QSlider.setRange (s : QSlider) (lo hi : Int) : QSlider :=
  { s with minimum := lo, maximum := max lo hi, value := qBound lo s.value (max lo hi) }

/-- The call `setMinimum`. -/
def QSlider.setMinimum (s : QSlider) (lo : Int) : QSlider :=
  s.setRange lo (max s.maximum lo)

/-- The call `setMaximum`. -/
def QSlider.setMaximum (s : QSlider) (hi : Int) : QSlider :=
  s.setRange (min s.minimum hi) hi

/-- The call `setValue`: the value is bounded to the range. -/
def QSlider.setValue (s : QSlider) (v : Int) : QSlider :=
  { s with value := qBound s.minimum v s.maximum }

/-- A fresh `QSpinBox`: range 0 to 99, value 0. -/
def QSpinBox.new : QSpinBox :=
  { minimum := 0, maximum := 99, value := 0, suffix := "", valueChanged := none }

/-- The call `QSpinBox::setRange`, made before any slot is connected. -/
def QSpinBox.setRange (s : QSpinBox) (lo hi : Int) : QSpinBox :=
  let top := if lo < hi then hi else lo
  { s with minimum := lo, maximum := top, value := qBound lo s.value top }

/-- The value a `QSpinBox` takes on `setValue`. -/
def QSpinBox.bounded (s : QSpinBox) (v : Int) : QSpinBox :=
  { s with value := qBound s.minimum v s.maximum }

/-- A fresh `QDateTimeEdit`: the toolkit's default range (14 September 1752 to
the end of the year 9999) and default value (1 January 2000), as seconds since
the epoch. -/
def QDateTimeEdit.new : QDateTimeEdit :=
  { minimum := -6857222400, maximum := 253402300799, dateTime := 946684800,
    editingFinished := none }

/-- The call `setDateTime`: the value is bounded to the range. -/
def QDateTimeEdit.setDateTime (d : QDateTimeEdit) (v : Int) : QDateTimeEdit :=
  { d with dateTime := qBound d.minimum v d.maximum }

/-- The call `setMinimumDateTime`: ignored before the earliest date the toolkit
supports, otherwise the range is adjusted and the value bounded again. -/
def QDateTimeEdit.setMinimumDateTime (d : QDateTimeEdit) (m : Int) : QDateTimeEdit :=
  if m < -6857222400 then d
  else
    let top := if m < d.maximum then d.maximum else m
    { d with minimum := m, maximum := top, dateTime := qBound m d.dateTime top }

/-- A fresh `QLineEdit`: empty, maximum length 32767, no validator. -/
def QLineEdit.new : QLineEdit :=
  { text := "", maxLength := 32767, hexValidator := false, textChanged := none }

/-- The text a `QLineEdit` holds after `setText`: the argument truncated to
the maximum length. -/
def QLineEdit.truncated (l : QLineEdit) (text : String) : String :=
  String.mk (text.toList.take l.maxLength)

/-- The call `setMaxLength`: the current text is truncated. -/
def QLineEdit.setMaxLength (l : QLineEdit) (n : Nat) : QLineEdit :=
  { l with maxLength := n, text := String.mk (l.text.toList.take n) }

/-- Whether a text matches `^[0-9a-fA-F]{0,8}$`. -/
def matchesHex8 (text : String) : Bool :=
  decide (text.toList.length ≤ 8) && text.toList.all (fun c => (digitVal 16 c).isSome)

/-- Whether the line edit lets the user's editing arrive at `text`: it fits the
maximum length and the validator, if installed, accepts it. -/
def QLineEdit.admits (l : QLineEdit) (text : String) : Bool :=
  decide (text.toList.length ≤ l.maxLength) && (!l.hexValidator || matchesHex8 text)

/-- A fresh `QComboBox`: no items, no current item. -/
def QComboBox.new : QComboBox :=
  { items := [], currentIndex := -1, activated := none }

/-- The call `addItem`: the first item added becomes the current one. -/
def QComboBox.addItem (c : QComboBox) (name : String) : QComboBox :=
  { c with items := c.items ++ [name],
           currentIndex := if c.items.isEmpty then 0 else c.currentIndex }

/-- The call `setCurrentIndex`: an index that names no item clears the
selection. -/
def QComboBox.setCurrentIndex (c : QComboBox) (i : Int) : QComboBox :=
  { c with currentIndex := if 0 ≤ i ∧ i < c.items.length then i else -1 }

/-! ## The closures at work -/

/-- The toolkit's `QWidget::setEnabled` on a child widget, as `isEnabled()`
reports it afterwards: `parent` is the enabled state of the parent and
`current` that of the child. Disabling always takes effect; enabling has no
effect while the parent is disabled. -/
def setEnabled (parent current enable : Bool) : Bool :=
  if enable then (if parent then true else current) else false

/-- Run a `touch` closure. The `[this]` lambda of `SetupComponent`:
`restore_button->setEnabled(true); restore_button->setVisible(true);`. The
button is a child of the `Widget`. -/
def Touch.run : Touch → State → Except Error State
  | .noop, st => .ok st
  | .reveal, st => do
    let b ← deref st.self.restore_button
    pure { st with self := { st.self with
      restore_button :=
        some { b with enabled := setEnabled st.self.enabled b.enabled true, visible := true } } }

/-- Run an optional slot. -/
def emit (slot : Option Touch) (st : State) : Except Error State :=
  match slot with
  | some t => t.run st
  | none => .ok st

/-- The call `line_edit->setText(text)`: `textChanged` is emitted when the text
changes. -/
def lineEditSetText (text : String) (st : State) : Except Error State := do
  let l ← deref st.self.line_edit
  let t := l.truncated text
  let st1 := { st with self := { st.self with line_edit := some { l with text := t } } }
  if t = l.text then pure st1 else emit l.textChanged st1

/-- The slot connected to `QSpinBox::valueChanged` in `CreateSpinBox`. -/
def onSpinBoxValueChanged (touch : Touch) (st : State) : Except Error State := do
  let s ← deref st.self.spinbox
  let g ← stoi st.setting.ToStringGlobal
  if s.value ≠ g then touch.run st else pure st

/-- The call `spinbox->setValue(v)`: `valueChanged` is emitted when the value
changes. -/
def spinBoxSetValue (v : Int) (st : State) : Except Error State := do
  let s ← deref st.self.spinbox
  let s1 := s.bounded v
  let st1 := { st with self := { st.self with spinbox := some s1 } }
  if s1.value = s.value then pure st1
  else
    match s.valueChanged with
    | some t => onSpinBoxValueChanged t st1
    | none => pure st1

/-- The lambda `get_clear_val` of `CreateDateTimeEdit`, in seconds since the
epoch. -/
def get_clear_val (restrict : Bool) (current_time : Int) (st : State) : Except Error Int :=
  if restrict then do
    let c ← st.self.checkboxObj
    if c.checked then stoll st.setting.ToStringGlobal else pure current_time
  else pure current_time

/-- The slot connected to `QDateTimeEdit::editingFinished`. -/
def onEditingFinished (restrict : Bool) (current_time : Int) (touch : Touch) (st : State) :
    Except Error State := do
  let d ← deref st.self.date_time_edit
  let v ← get_clear_val restrict current_time st
  if d.dateTime ≠ v then touch.run st else pure st

/-- The lambda `find_index` of `CreateCombobox`. -/
def find_index_from (value : Nat) : ComboboxTranslations → Nat → Int
  | [], _ => -1
  | e :: rest, i => if e.1 = value then (i : Int) else find_index_from value rest (i + 1)

/-- The lambda `find_index` of `CreateCombobox`, from index 0. -/
def find_index (enumeration : ComboboxTranslations) (value : Nat) : Int :=
  find_index_from value enumeration 0

/-- The call `enumeration->at(current)` with an `int` index: a negative index
converts to a huge unsigned one and is out of range as well. -/
def enumeration_at (enumeration : ComboboxTranslations) (current : Int) :
    Except Error (Nat × String) :=
  if current < 0 then .error .out_of_range
  else
    match enumeration[current.toNat]? with
    | some e => .ok e
    | none => .error .out_of_range

/-- Run a serializer closure. -/
def Serializer.run : Serializer → State → Except Error String
  | .empty, _ => .ok ""
  | .checkBox, st => do
    let c ← st.self.checkboxObj
    pure (if c.checked then "true" else "false")
  | .combobox enumeration, st => do
    let c ← deref st.self.combobox
    let e ← enumeration_at enumeration c.currentIndex
    pure (to_string e.1)
  | .lineEdit, st => do
    let l ← deref st.self.line_edit
    pure l.text
  | .slider, st => do
    let s ← deref st.self.slider
    pure (to_string s.value)
  | .spinBox, st => do
    let s ← deref st.self.spinbox
    pure (to_string s.value)
  | .hexEdit, st => do
    let l ← deref st.self.line_edit
    let v ← stoul16 l.text
    pure (to_string v)
  | .dateTimeEdit, st => do
    let d ← deref st.self.date_time_edit
    pure (to_string d.dateTime)

/-- Run a restore closure. -/
def RestoreFunc.run : RestoreFunc → State → Except Error State
  | .noop, st => .ok st
  | .checkBox bool_setting, st =>
    match st.self.checkbox with
    | none => .error .null_dereference
    | some k => do
      let c ← deref st.self.checkboxes[k]?
      let c1 := { c with checked := decide ((st.settings bool_setting).ToStringGlobal = "true") }
      pure { st with self := { st.self with checkboxes := st.self.checkboxes.set k c1 } }
  | .combobox enumeration, st => do
    let global_value := to_u32 (← stoi st.setting.ToStringGlobal)
    let c ← deref st.self.combobox
    pure { st with self := { st.self with
      combobox := some (c.setCurrentIndex (find_index enumeration global_value)) } }
  | .lineEdit, st => lineEditSetText st.setting.ToStringGlobal st
  | .slider, st => do
    let v ← stoi st.setting.ToStringGlobal
    let s ← deref st.self.slider
    pure { st with self := { st.self with slider := some (s.setValue v) } }
  | .spinBox, st => do
    let v ← stoi st.setting.ToStringGlobal
    spinBoxSetValue v st
  | .hexEdit, st => do
    let v ← stoi st.setting.ToStringGlobal
    lineEditSetText (format_08x v) st
  | .dateTimeEdit restrict current_time, st => do
    let v ← get_clear_val restrict current_time st
    let d ← deref st.self.date_time_edit
    pure { st with self := { st.self with date_time_edit := some (d.setDateTime v) } }

/-- The slot connected to the restore button's `clicked` signal in
`SetupComponent`. -/
def onRestoreClicked (restore_func checkbox_restore_func : RestoreFunc) (st : State) :
    Except Error State := do
  let b ← deref st.self.restore_button
  let st1 := { st with self := { st.self with
    restore_button := some { b with enabled := false, visible := false } } }
  let st2 ← checkbox_restore_func.run st1
  restore_func.run st2

/-- The statement `p->LoadString(serializer())`. -/
def loadSerialized (p : Nat) (serializer : Serializer) (st : State) : Except Error State := do
  let v ← serializer.run st
  pure { st with settings := st.settings.LoadString p v }

/-- Run a `load_func` closure. -/
def LoadFunc.run : LoadFunc → State → Except Error State
  | .noop, st => .ok st
  | .configuringGlobal serializer checkbox_serializer require_checkbox other_setting, st => do
    let st1 ← (if require_checkbox then do
        let v ← checkbox_serializer.run st
        let o ← deref other_setting
        pure { st with settings := st.settings.LoadString o v }
      else .ok st)
    loadSerialized st1.self.setting serializer st1
  | .configuringCustom serializer require_checkbox checkbox_serializer other_setting, st => do
    let b ← deref st.self.restore_button
    let using_global := !b.enabled
    let st1 := { st with settings := st.settings.SetGlobal st.self.setting using_global }
    let st2 ← (if !using_global then loadSerialized st1.self.setting serializer st1 else .ok st1)
    (if require_checkbox then do
      let o ← deref other_setting
      let st3 := { st2 with settings := st2.settings.SetGlobal o using_global }
      (if !using_global then loadSerialized o checkbox_serializer st3 else .ok st3)
    else .ok st2)

/-- Invoke a commit callback: the lambda pushed onto `apply_funcs` by the
constructor. -/
def ApplyFunc.call (f : ApplyFunc) (powered_on : Bool) (st : State) : Except Error State :=
  if (st.settings f.setting_).RuntimeModfiable || !powered_on then f.load_func.run st
  else .ok st

/-! ## The member functions of `Widget` -/

/-- What a `Create...` member function leaves behind: the new state, the values
of the `serializer` and `restore_func` reference parameters, and the returned
`QWidget*`. -/
structure Created where
  st : State
  serializer : Serializer
  restore_func : RestoreFunc
  component : Option Component

/-- The member function `Widget::CreateRestoreGlobalButton`. -/
def CreateRestoreGlobalButton (using_global : Bool) (st : State) : State × QPushButton :=
  let count := st.restore_button_count + 1
  ({ st with restore_button_count := count },
   { objectName := count, enabled := !using_global, visible := !using_global,
     clicked := none })

/-- The member function `Widget::CreateLabel`. -/
def CreateLabel (text : String) (st : State) : State :=
  { st with self := { st.self with qt_label := some text } }

/-- The member function `Widget::CreateCheckBox`. -/
def CreateCheckBox (env : Env) (bool_setting : Nat) (label : String)
    (restore_func : RestoreFunc) (touch : Touch) (st : State) : Created :=
  let b := st.settings bool_setting
  let k := st.self.checkboxes.length
  let box : QCheckBox :=
    { text := label, checked := decide (b.ToString = "true"),
      enabled := !(!b.Save && !env.IsConfiguringGlobal && st.self.runtime_lock),
      clicked := if !env.IsConfiguringGlobal then some touch else none }
  { st := { st with self := { st.self with
              checkboxes := st.self.checkboxes ++ [box], checkbox := some k } },
    serializer := .checkBox,
    restore_func := if !env.IsConfiguringGlobal then .checkBox bool_setting else restore_func,
    component := some (.checkbox k) }

/-- The member function `Widget::CreateCombobox`. -/
def CreateCombobox (env : Env) (serializer : Serializer) (restore_func : RestoreFunc)
    (touch : Touch) (st : State) : Except Error Created :=
  let type := st.setting.TypeId
  match st.self.combobox_enumerations.lookup type with
  | none =>
    .ok { st := { st with self := { st.self with combobox := some QComboBox.new } },
          serializer := serializer, restore_func := restore_func,
          component := some .combobox }
  | some enumeration => do
    let filled := enumeration.foldl (fun c e => c.addItem e.2) QComboBox.new
    let setting_value := to_u32 (← stoi st.setting.ToString)
    let selected := filled.setCurrentIndex (find_index enumeration setting_value)
    let box : QComboBox :=
      { selected with activated := if !env.IsConfiguringGlobal then some touch else none }
    pure { st := { st with self := { st.self with combobox := some box } },
           serializer := .combobox enumeration,
           restore_func :=
             if !env.IsConfiguringGlobal then .combobox enumeration else restore_func,
           component := some .combobox }

/-- The member function `Widget::CreateLineEdit`. -/
def CreateLineEdit (env : Env) (restore_func : RestoreFunc) (touch : Touch)
    (managed : Bool) (st : State) : Created :=
  let edit : QLineEdit := { QLineEdit.new with text := QLineEdit.new.truncated st.setting.ToString }
  if !managed then
    { st := { st with self := { st.self with line_edit := some edit } },
      serializer := .lineEdit, restore_func := restore_func, component := some .line_edit }
  else if !env.IsConfiguringGlobal then
    { st := { st with self := { st.self with
                line_edit := some { edit with textChanged := some touch } } },
      serializer := .lineEdit, restore_func := .lineEdit, component := some .line_edit }
  else
    { st := { st with self := { st.self with line_edit := some edit } },
      serializer := .lineEdit, restore_func := restore_func, component := some .line_edit }

/-- The member function `Widget::CreateSlider`. The multiplier and the format
only feed the feedback label. -/
def CreateSlider (env : Env) (reversed : Bool) (restore_func : RestoreFunc) (touch : Touch)
    (st : State) : Except Error Created := do
  let max_val ← stoi st.setting.MaxVal
  let lo ← stoi st.setting.MinVal
  let s1 := (QSlider.new.setMinimum lo).setMaximum max_val
  let v ← stoi st.setting.ToString
  let s2 := { s1.setValue v with invertedAppearance := reversed }
  let s3 : QSlider :=
    { s2 with sliderReleased := if !env.IsConfiguringGlobal then some touch else none }
  pure { st := { st with self := { st.self with slider := some s3 } },
         serializer := .slider,
         restore_func := if !env.IsConfiguringGlobal then .slider else restore_func,
         component := some .slider }

/-- The member function `Widget::CreateSpinBox`. -/
def CreateSpinBox (env : Env) (suffix : String) (restore_func : RestoreFunc) (touch : Touch)
    (st : State) : Except Error Created := do
  let min_val ← stoi st.setting.MinVal
  let max_val ← stoi st.setting.MaxVal
  let default_val ← stoi st.setting.ToString
  let s1 := ((QSpinBox.new.setRange min_val max_val).bounded default_val)
  let s2 : QSpinBox :=
    { s1 with suffix := suffix,
              valueChanged := if !env.IsConfiguringGlobal then some touch else none }
  pure { st := { st with self := { st.self with spinbox := some s2 } },
         serializer := .spinBox,
         restore_func := if !env.IsConfiguringGlobal then .spinBox else restore_func,
         component := some .spinbox }

/-- The member function `Widget::CreateHexEdit`. -/
def CreateHexEdit (env : Env) (restore_func : RestoreFunc) (touch : Touch) (st : State) :
    Except Error Created := do
  let made := CreateLineEdit env restore_func touch false st
  let l ← deref made.st.self.line_edit
  let default_val := format_08x (← stoi made.st.setting.ToString)
  let l1 : QLineEdit := { l with text := l.truncated default_val }
  let l2 : QLineEdit := { l1.setMaxLength 8 with hexValidator := true }
  let l3 : QLineEdit :=
    { l2 with textChanged := if !env.IsConfiguringGlobal then some touch else l2.textChanged }
  pure { st := { made.st with self := { made.st.self with line_edit := some l3 } },
         serializer := .hexEdit,
         restore_func := if !env.IsConfiguringGlobal then .hexEdit else made.restore_func,
         component := some .line_edit }

/-- The member function `Widget::CreateDateTimeEdit`. -/
def CreateDateTimeEdit (env : Env) (disabled restrict : Bool) (restore_func : RestoreFunc)
    (touch : Touch) (st : State) : Except Error Created := do
  let current_time := env.currentSecsSinceEpoch
  let the_time ← (if disabled then .ok current_time else stoll st.setting.ToString)
  let d1 := (QDateTimeEdit.new.setDateTime the_time).setMinimumDateTime 0
  let d2 : QDateTimeEdit :=
    { d1 with editingFinished :=
        if !env.IsConfiguringGlobal then some (restrict, current_time, touch) else none }
  pure { st := { st with self := { st.self with date_time_edit := some d2 } },
         serializer := .dateTimeEdit,
         restore_func :=
           if !env.IsConfiguringGlobal then .dateTimeEdit restrict current_time
           else restore_func,
         component := some .date_time_edit }

/-- The call `layout->addWidget(c)`. -/
def addWidget (c : Component) (st : State) : State :=
  { st with self := { st.self with layout := st.self.layout ++ [c] } }

/-- Modelled from the spec: the assertion macro `UNIMPLEMENTED()` of
`common/assert.h`; an unsupported presentation request for an otherwise valid
type aborts construction. -/
def UNIMPLEMENTED {α : Type} : Except Error α := .error .unimplemented

/-- Modelled from the spec: the default argument `managed = true` that
`shared_widget.h` declares for `CreateLineEdit`, used by the calls of
`SetupComponent` that pass three arguments. -/
def CreateLineEdit.managed_default : Bool := true

/-- Whether the type is one of the integer types `SetupComponent` lists. -/
def isIntegerType (type : TypeIndex) : Bool :=
  type = .u32 || type = .int || type = .u16 || type = .s64 || type = .u8

/-- The dispatch of `SetupComponent` on the type of the setting and the request:
the `if` / `else if` chain with its two `switch` statements. `none` in the
`component` means that `data_component` stayed null. -/
def createDataComponent (env : Env) (label : String) (request : RequestType)
    (other_setting : Option Nat) (string : String) (touch : Touch) (st : State) :
    Except Error Created :=
  let type := st.setting.TypeId
  if type = .bool then
    .ok (CreateCheckBox env st.self.setting label .noop touch st)
  else if st.setting.IsEnum then
    CreateCombobox env .empty .noop touch st
  else if isIntegerType type then
    match request with
    | .Slider => CreateSlider env false .noop touch st
    | .ReverseSlider => CreateSlider env true .noop touch st
    | .Default => .ok (CreateLineEdit env .noop touch CreateLineEdit.managed_default st)
    | .LineEdit => .ok (CreateLineEdit env .noop touch CreateLineEdit.managed_default st)
    | .DateTimeEdit => do
      let o ← deref other_setting
      CreateDateTimeEdit env (decide ((st.settings o).ToString ≠ "true")) true .noop touch st
    | .SpinBox => CreateSpinBox env string .noop touch st
    | .HexEdit => CreateHexEdit env .noop touch st
    | .ComboBox => CreateCombobox env .empty .noop touch st
    | .MaxEnum => UNIMPLEMENTED
  else if type = .string then
    match request with
    | .Default => .ok (CreateLineEdit env .noop touch CreateLineEdit.managed_default st)
    | .LineEdit => .ok (CreateLineEdit env .noop touch CreateLineEdit.managed_default st)
    | .ComboBox => CreateCombobox env .empty .noop touch st
    | _ => UNIMPLEMENTED
  else
    .ok { st := st, serializer := .empty, restore_func := .noop, component := none }

/-- The left-hand side of the layout in `SetupComponent`: the check box of a
boolean companion, else a label unless the setting itself is boolean. The
result carries `checkbox_serializer` and `checkbox_restore_func`. -/
def createLhs (env : Env) (label : String) (require_checkbox : Bool)
    (other_setting : Option Nat) (touch : Touch) (st : State) : Except Error Created :=
  if require_checkbox then do
    let o ← deref other_setting
    let made := CreateCheckBox env o label .noop touch st
    let c ← deref made.component
    pure { made with st := addWidget c made.st }
  else if st.setting.TypeId ≠ .bool then
    .ok { st := addWidget .label (CreateLabel label st), serializer := .empty,
          restore_func := .noop, component := none }
  else
    .ok { st := st, serializer := .empty, restore_func := .noop, component := none }

/-- The tail of `SetupComponent`, after the controls exist: the null check on
`data_component`, the layout, and the assignment of `load_func`. -/
def finishSetup (env : Env) (load_func : LoadFunc) (managed : Bool)
    (other_setting : Option Nat) (require_checkbox : Bool)
    (checkbox_serializer : Serializer) (checkbox_restore_func : RestoreFunc)
    (made : Created) : Except Error (State × LoadFunc) :=
  match made.component with
  | none => .ok ({ made.st with self := { made.st.self with created := false } }, load_func)
  | some data_component =>
    let st := addWidget data_component made.st
    if !managed then .ok (st, load_func)
    else if env.IsConfiguringGlobal then
      .ok (st, .configuringGlobal made.serializer checkbox_serializer require_checkbox
        other_setting)
    else do
      let st := addWidget .restore_button st
      let b ← deref st.self.restore_button
      let b1 : QPushButton :=
        { b with clicked := some (made.restore_func, checkbox_restore_func) }
      pure ({ st with self := { st.self with restore_button := some b1 } },
        .configuringCustom made.serializer require_checkbox checkbox_serializer other_setting)

/-- The head of `SetupComponent`: `created = true`, and in override mode for a
managed binding the restore button and the revealing `touch`. -/
def beginSetup (env : Env) (managed : Bool) (st : State) : State × Touch :=
  let st := { st with self := { st.self with created := true } }
  if !env.IsConfiguringGlobal && managed then
    let r := CreateRestoreGlobalButton st.setting.UsingGlobal st
    ({ r.1 with self := { r.1.self with restore_button := some r.2 } }, .reveal)
  else (st, .noop)

/-- The local `require_checkbox` of `SetupComponent`. -/
def requireCheckbox (settings : Store) (other_setting : Option Nat) : Bool :=
  match other_setting with
  | some o => decide ((settings o).TypeId = .bool)
  | none => false

/-- The member function `Widget::SetupComponent`; the result carries the state
and the value left in the reference parameter `load_func`. -/
def SetupComponent (env : Env) (label : String) (load_func : LoadFunc) (managed : Bool)
    (request : RequestType) (other_setting : Option Nat) (string : String) (st : State) :
    Except Error (State × LoadFunc) := do
  let require_checkbox := requireCheckbox st.settings other_setting
  let begun := beginSetup env managed st
  let lhs ← createLhs env label require_checkbox other_setting begun.2 begun.1
  let made ← createDataComponent env label request other_setting string begun.2 lhs.st
  finishSetup env load_func managed other_setting require_checkbox lhs.serializer
    lhs.restore_func made

/-- The member function `Widget::Valid`. -/
def Widget.Valid (w : Widget) : Bool := w.created

/-- The arguments of the constructor `Widget::Widget`, the parent widget, the
multiplier (which only feeds the slider's feedback label) and the registry
apart; the registry is part of the state. -/
structure Args where
  setting_ : Nat
  translations_ : TranslationMap
  combobox_translations_ : ComboboxTranslationMap
  runtime_lock_ : Bool
  request : RequestType
  managed : Bool
  other_setting : Option Nat
  string : String
  deriving DecidableEq, Repr

/-- The label and tooltip the constructor resolves for the setting: the entry
of the translation table, else the setting's own label and no tooltip. -/
def resolveLabel (translations : TranslationMap) (setting : BasicSetting) : String × String :=
  match translations.lookup setting.Id with
  | some t => (t.1, t.2)
  | none => (setting.GetLabel, "")

/-- The statement `this->setEnabled(enable)` at the end of the constructor. The
`Widget` is enabled until then, so enabling it changes nothing; disabling it
also disables its children, the restore button and the check boxes, for which
`isEnabled()` is false from then on. -/
def Widget.setEnabled (w : Widget) (enable : Bool) : Widget :=
  if enable then { w with enabled := true }
  else
    { w with
      enabled := false,
      restore_button := w.restore_button.map (fun b => { b with enabled := false }),
      checkboxes := w.checkboxes.map (fun c => { c with enabled := false }) }

/-- The end of the constructor once `SetupComponent` has created the controls:
the commit callback is pushed to the front of `apply_funcs`, then the widget's
enabled, visible and tooltip properties are set. -/
def registerAndShow (env : Env) (this_ : Nat) (a : Args) (tooltip : String)
    (load_func : LoadFunc) (st : State) : State :=
  let st := { st with apply_funcs :=
    { this_ := this_, load_func := load_func, setting_ := a.setting_ } :: st.apply_funcs }
  let enable := a.runtime_lock_ || st.setting.RuntimeModfiable
  let enable :=
    if st.setting.Switchable && env.IsConfiguringGlobal && !a.runtime_lock_ then
      enable && st.setting.UsingGlobal
    else enable
  { st with self := { st.self.setEnabled enable with
      visible := env.IsConfiguringGlobal || st.setting.Switchable,
      toolTip := tooltip } }

/-- The state in which the body of the constructor starts: the member
initialisers have run. -/
def State.initial (a : Args) (settings : Store) (restore_button_count : Nat)
    (apply_funcs_ : List ApplyFunc) : State :=
  { settings := settings, restore_button_count := restore_button_count,
    apply_funcs := apply_funcs_,
    self := Widget.init a.setting_ a.translations_ a.combobox_translations_ a.runtime_lock_ }

/-- The constructor `Widget::Widget`, building the object at address `this_`
from the settings store, the button counter and the apply registry. -/
def Widget.construct (env : Env) (this_ : Nat) (a : Args) (settings : Store)
    (restore_button_count : Nat) (apply_funcs_ : List ApplyFunc) : Except Error State :=
  let st : State := State.initial a settings restore_button_count apply_funcs_
  if !env.IsConfiguringGlobal && !st.setting.Switchable then .ok st
  else if (resolveLabel st.self.translations st.setting).1 = "" then .ok st
  else do
    let done ← SetupComponent env (resolveLabel st.self.translations st.setting).1 .noop
      a.managed a.request a.other_setting a.string st
    (if !done.1.self.created then .ok done.1
     else .ok (registerAndShow env this_ a (resolveLabel st.self.translations st.setting).2
       done.2 done.1))

/-! ## User interaction -/

/-- The signals the user's actions deliver to a `Widget`: a click on check box
`k`, the choice of item `i` of the drop-down, an edit of the line edit that
arrives at `text`, the slider dragged to `v` and released, the spin box stepped
to `v`, the date/time field edited to `v` and left, and a click on the restore
button. -/
inductive UserEvent where
  | clickCheckBox (k : Nat)
  | activateItem (i : Nat)
  | editText (text : String)
  | moveSlider (v : Int)
  | stepSpinBox (v : Int)
  | editDateTime (v : Int)
  | clickRestore
  deriving DecidableEq, Repr

/-- Deliver one user event: the signal is emitted and the connected slot runs.
An event for a control that does not exist, or an edit the line edit does not
admit, changes nothing. The toolkit emits these signals only for a control
that is enabled; delivery here does not depend on it, so what is proved for
every sequence of events covers the sequences the toolkit allows. -/
def UserEvent.deliver (e : UserEvent) (st : State) : Except Error State :=
  match e with
  | .clickCheckBox k =>
    match st.self.checkboxes[k]? with
    | none => .ok st
    | some c =>
      emit c.clicked { st with self := { st.self with
        checkboxes := st.self.checkboxes.set k { c with checked := !c.checked } } }
  | .activateItem i =>
    match st.self.combobox with
    | none => .ok st
    | some c =>
      if i < c.items.length then
        emit c.activated { st with self := { st.self with
          combobox := some { c with currentIndex := (i : Int) } } }
      else .ok st
  | .editText text =>
    match st.self.line_edit with
    | none => .ok st
    | some l =>
      if l.admits text then
        let st1 := { st with self := { st.self with line_edit := some { l with text := text } } }
        if text = l.text then .ok st1 else emit l.textChanged st1
      else .ok st
  | .moveSlider v =>
    match st.self.slider with
    | none => .ok st
    | some s =>
      emit s.sliderReleased { st with self := { st.self with slider := some (s.setValue v) } }
  | .stepSpinBox v =>
    match st.self.spinbox with
    | none => .ok st
    | some _ => spinBoxSetValue v st
  | .editDateTime v =>
    match st.self.date_time_edit with
    | none => .ok st
    | some d =>
      let st1 := { st with self := { st.self with date_time_edit := some (d.setDateTime v) } }
      match d.editingFinished with
      | some (restrict, current_time, touch) => onEditingFinished restrict current_time touch st1
      | none => .ok st1
  | .clickRestore =>
    match st.self.restore_button with
    | none => .ok st
    | some b =>
      match b.clicked with
      | some (restore_func, checkbox_restore_func) =>
        onRestoreClicked restore_func checkbox_restore_func st
      | none => .ok st

/-- Deliver a sequence of user events in order. -/
def deliverAll : List UserEvent → State → Except Error State
  | [], st => .ok st
  | e :: es, st => do
    let st1 ← e.deliver st
    deliverAll es st1

/-! ## A dialog session -/

/-- A dialog under construction: the settings store, the button counter, the
apply registry shared by all bindings, and the `Widget` objects built so far
(the address of a `Widget` is its position in the list). -/
structure Dialog where
  settings : Store
  restore_button_count : Nat
  apply_funcs : List ApplyFunc
  widgets : List Widget

/-- Build one more `Widget` in the dialog. -/
def Dialog.construct (env : Env) (a : Args) (d : Dialog) : Except Error Dialog := do
  let st ← Widget.construct env d.widgets.length a d.settings d.restore_button_count
    d.apply_funcs
  pure { settings := st.settings, restore_button_count := st.restore_button_count,
         apply_funcs := st.apply_funcs, widgets := d.widgets ++ [st.self] }

/-- Build one `Widget` per entry of the list, in order. -/
def Dialog.constructAll (env : Env) : List Args → Dialog → Except Error Dialog
  | [], d => .ok d
  | a :: rest, d => do
    let d1 ← d.construct env a
    Dialog.constructAll env rest d1

/-! ## Notions used in the statements -/

/-- Whether `SetupComponent` has no branch for the setting's type, so that
`data_component` stays null. -/
def noAdapter (s : BasicSetting) : Bool :=
  s.TypeId ≠ .bool && !s.IsEnum && !isIntegerType s.TypeId && s.TypeId ≠ .string

/-- The three reasons for which a construction yields no binding: overrides are
being configured and the setting is not switchable, the resolved label is
empty, or no control adapter is created. -/
def constructionSkipped (env : Env) (a : Args) (settings : Store) : Bool :=
  (!env.IsConfiguringGlobal && !(settings a.setting_).Switchable) ||
  decide ((resolveLabel a.translations_ (settings a.setting_)).1 = "") ||
  noAdapter (settings a.setting_)

/-- What identifies a commit callback: the `Widget` it belongs to and the
setting it owns. -/
def ApplyFunc.key (f : ApplyFunc) : Nat × Nat := (f.this_, f.setting_)

/-- The bindings that materialise when the listed constructions run in order
from address `base`, in construction order. -/
def registered (env : Env) (settings : Store) : Nat → List Args → List (Nat × Nat)
  | _, [] => []
  | base, a :: rest =>
    (if constructionSkipped env a settings then [] else [(base, a.setting_)]) ++
      registered env settings (base + 1) rest

/-- The companion setting when it is boolean-typed, the only case in which
`SetupComponent` binds a check box to it. -/
def booleanCompanion (settings : Store) (other_setting : Option Nat) : Option Nat :=
  if requireCheckbox settings other_setting then other_setting else none

/-- The store a commit in override mode is to leave, in the words of the
specification: the using-global flag of the setting is set to whether the
restore button is disabled; only when the button is enabled is the serialized
value written; a boolean companion gets the same flag and, under the same
condition, its serialized value. -/
def commitStore (m : Store) (setting : Nat) (companion : Option Nat) (enabled : Bool)
    (value companionValue : String) : Store :=
  let m1 := m.SetGlobal setting (!enabled)
  let m2 := if enabled then m1.LoadString setting value else m1
  match companion with
  | none => m2
  | some o =>
    let m3 := m2.SetGlobal o (!enabled)
    if enabled then m3.LoadString o companionValue else m3

/-- A check box with its check state cleared. -/
def QCheckBox.unchecked (c : QCheckBox) : QCheckBox := { c with checked := false }

/-- A widget with every property the user or a restore closure can change set
to a fixed value: what remains is the structure built by the constructor. -/
def Widget.erase (w : Widget) : Widget :=
  { w with
    checkboxes := w.checkboxes.map QCheckBox.unchecked,
    combobox := w.combobox.map (fun c => { c with currentIndex := 0 }),
    line_edit := w.line_edit.map (fun l => { l with text := "" }),
    slider := w.slider.map (fun s => { s with value := 0 }),
    spinbox := w.spinbox.map (fun s => { s with value := 0 }),
    date_time_edit := w.date_time_edit.map (fun d => { d with dateTime := 0 }),
    restore_button :=
      w.restore_button.map (fun b => { b with enabled := false, visible := false }) }

/-- The parts of the state that creating a control leaves alone. -/
structure Kept (st st1 : State) : Prop where
  settings : st1.settings = st.settings
  apply_funcs : st1.apply_funcs = st.apply_funcs
  count : st1.restore_button_count = st.restore_button_count
  setting : st1.self.setting = st.self.setting
  runtime_lock : st1.self.runtime_lock = st.self.runtime_lock
  translations : st1.self.translations = st.self.translations
  enumerations : st1.self.combobox_enumerations = st.self.combobox_enumerations
  restore_button : st1.self.restore_button = st.self.restore_button
  created : st1.self.created = st.self.created
  enabled : st1.self.enabled = st.self.enabled
  visible : st1.self.visible = st.self.visible
  toolTip : st1.self.toolTip = st.self.toolTip

/-- The frame of the event handlers: store, counter and registry are untouched
and the widget keeps its structure. -/
structure Frame (st st1 : State) : Prop where
  settings : st1.settings = st.settings
  count : st1.restore_button_count = st.restore_button_count
  apply_funcs : st1.apply_funcs = st.apply_funcs
  shape : st1.self.erase = st.self.erase

/-- The control members of two widgets agree; of the check boxes, whose
enabled property the constructor may still change, only the number is
compared. -/
structure SameControls (w w1 : Widget) : Prop where
  checkboxes : w1.checkboxes.length = w.checkboxes.length
  checkbox : w1.checkbox = w.checkbox
  combobox : w1.combobox = w.combobox
  line_edit : w1.line_edit = w.line_edit
  slider : w1.slider = w.slider
  spinbox : w1.spinbox = w.spinbox
  date_time_edit : w1.date_time_edit = w.date_time_edit

/-- The check boxes of a widget and its member `checkbox` are the same in both
states. -/
structure KeptBoxes (st st1 : State) : Prop where
  checkboxes : st1.self.checkboxes = st.self.checkboxes
  checkbox : st1.self.checkbox = st.self.checkbox

/-! ## Sample inputs -/

/-- A switchable sample setting with bounds 0 and 100. -/
def sampleSetting (type : TypeIndex) (value global_value : String)
    (using_global runtime : Bool) : BasicSetting :=
  { Id := 7, GetLabel := "Sample", TypeId := type, IsEnum := false, ToString := value,
    ToStringGlobal := global_value, MinVal := "0", MaxVal := "100", Switchable := true,
    UsingGlobal := using_global, RuntimeModfiable := runtime, Save := true }

/-- A session that configures overrides, started 1000 seconds after the epoch. -/
def overrideEnv : Env := { IsConfiguringGlobal := false, currentSecsSinceEpoch := 1000 }

/-- A session that configures the global values. -/
def globalEnv : Env := { IsConfiguringGlobal := true, currentSecsSinceEpoch := 1000 }

/-- The state a computation ends in, or the fallback when it fails. -/
def stateOf (x : Except Error State) (fallback : State) : State :=
  match x with
  | .ok st => st
  | .error _ => fallback

/-- The fault a computation ends in, if it fails. -/
def faultOf {α : Type} (x : Except Error α) : Option Error :=
  match x with
  | .ok _ => none
  | .error e => some e

/-- The arguments for a managed binding of setting 0 with the given request
and companion, with no translation and no enumeration table. -/
def sampleArgs (request : RequestType) (other_setting : Option Nat) : Args :=
  { setting_ := 0, translations_ := [], combobox_translations_ := [], runtime_lock_ := true,
    request := request, managed := true, other_setting := other_setting, string := "" }

/-- A text setting at address 0: current value `a`, global value `b`, not
runtime-modifiable. -/
def textStore : Store := fun _ => sampleSetting .string "a" "b" false false

/-- A 64-bit integer setting at address 0 (current 100, global 50) and a
companion at every other address, of the given type and value. -/
def clockStore (companion : TypeIndex) (value : String) : Store := fun p =>
  if p = 0 then sampleSetting .s64 "100" "50" false true
  else sampleSetting companion value value false true

/-- A 32-bit integer setting at address 0 with current and global value 255. -/
def hexStore : Store := fun _ => sampleSetting .u32 "255" "255" true true

/-- The text binding of `textStore` in override mode. -/
def textBinding : State :=
  stateOf (Widget.construct overrideEnv 0 (sampleArgs .LineEdit none) textStore 0 [])
    (State.initial (sampleArgs .LineEdit none) textStore 0 [])

/-- The commit callback of `textBinding`. -/
def textCallback : ApplyFunc :=
  { this_ := 0, load_func := .configuringCustom .lineEdit false .empty none, setting_ := 0 }

/-- The restore button of `textBinding`. -/
def textButton : QPushButton :=
  { objectName := 1, enabled := true, visible := true,
    clicked := some (.lineEdit, .noop) }

/-- The date/time binding of `clockStore` with a boolean companion that is off. -/
def clockBinding : State :=
  stateOf (Widget.construct overrideEnv 0 (sampleArgs .DateTimeEdit (some 1))
      (clockStore .bool "false") 0 [])
    (State.initial (sampleArgs .DateTimeEdit (some 1)) (clockStore .bool "false") 0 [])

/-- The hex binding of `hexStore` while the global values are configured. -/
def hexBinding : State :=
  stateOf (Widget.construct globalEnv 0 (sampleArgs .HexEdit none) hexStore 0 [])
    (State.initial (sampleArgs .HexEdit none) hexStore 0 [])

/-- The commit callback of `hexBinding`. -/
def hexCallback : ApplyFunc :=
  { this_ := 0, load_func := .configuringGlobal .hexEdit .empty false none, setting_ := 0 }

/-- The dialog a computation ends in, or the fallback when it fails. -/
def dialogOf (x : Except Error Dialog) (fallback : Dialog) : Dialog :=
  match x with
  | .ok d => d
  | .error _ => fallback

/-- An empty dialog over `textStore`. -/
def emptyDialog : Dialog :=
  { settings := textStore, restore_button_count := 0, apply_funcs := [], widgets := [] }

/-- Three constructions over `textStore`: a line edit, a binding whose
translated label is empty, and another line edit. -/
def threeArgs : List Args :=
  [sampleArgs .LineEdit none,
   { sampleArgs .LineEdit none with translations_ := [(7, ("", ""))] },
   sampleArgs .Default none]

/-- The user edits `textBinding` and then clicks its restore button. -/
def textEvents : List UserEvent := [.editText "zz", .clickRestore]

/-- An enumeration table of two entries. -/
def sampleTable : ComboboxTranslations := [(10, "Ten"), (20, "Twenty")]

/-- The state before `CreateCombobox` runs for an enumerated setting with raw
value 20 whose type has `sampleTable` registered. -/
def comboState : State :=
  State.initial
    { sampleArgs .Default none with combobox_translations_ := [(.other 3, sampleTable)] }
    (fun _ => { sampleSetting (.other 3) "20" "10" true true with IsEnum := true }) 0 []

/-- The state before an integer adapter is created for a setting with current
value 50 and bounds 0 and 100. -/
def integerState : State :=
  State.initial (sampleArgs .Slider none) (fun _ => sampleSetting .u32 "50" "50" true true) 0 []

/-- Two boolean settings: the primary at address 0 (off) and a companion at
every other address (off). -/
def twoFlagsStore : Store := fun _ => sampleSetting .bool "false" "false" false true

/-- A boolean setting at every address that is neither saved nor
runtime-modifiable. -/
def unsavedFlagStore : Store :=
  fun _ => { sampleSetting .bool "true" "true" true false with Save := false }

/-- A boolean setting at every address that is saved but not runtime-modifiable. -/
def savedFlagStore : Store := fun _ => sampleSetting .bool "true" "true" true false

/-- The state in which the constructor body starts, with the runtime lock set
and no check box created yet. -/
def lockedState (settings : Store) : State :=
  State.initial (sampleArgs .Default none) settings 0 []

/-- The enabled property of the check box the member `checkbox` points at after
a call of `CreateCheckBox`. -/
def checkboxEnabled (r : Created) : Except Error Bool :=
  (fun (b : QCheckBox) => b.enabled) <$> r.st.self.checkboxObj

/-- Two boolean settings, both overridden: the primary at address 0 is off and
the companion at every other address is on. -/
def flagPairStore : Store := fun p =>
  if p = 0 then sampleSetting .bool "false" "false" false true
  else sampleSetting .bool "true" "true" false true

/-- The arguments of `sampleArgs` with the runtime lock cleared. -/
def unlockedArgs (request : RequestType) (other_setting : Option Nat) : Args :=
  { sampleArgs request other_setting with runtime_lock_ := false }

/-- A 64-bit integer setting at address 0 (current 100, global -5) and a boolean
companion at every other address that is on. -/
def earlyClockStore : Store := fun p =>
  if p = 0 then sampleSetting .s64 "100" "-5" false true
  else sampleSetting .bool "true" "true" false true

/-- An integer setting at address 0 with current value 50, bounds 0 and 100 and
global value 300, overridden. -/
def wideSliderStore : Store := fun _ => sampleSetting .u32 "50" "300" false true

/-! ## Proofs -/

/-! ### The `Except` monad -/

theorem bind_ok {ε α β : Type} (x : Except ε α) (f : α → Except ε β) (b : β) :
    (x >>= f) = .ok b ↔ ∃ a, x = .ok a ∧ f a = .ok b := by
  cases x with
  | error e => simp [bind, Except.bind]
  | ok a => simp [bind, Except.bind]

theorem deref_ok {α : Type} (o : Option α) (a : α) : deref o = .ok a ↔ o = some a := by
  cases o <;> simp [deref]

/-! ### Construction leaves the store and the registry alone -/

theorem Kept.unchanged (st : State) : Kept st st := by constructor <;> rfl

theorem CreateCheckBox_kept (env : Env) (p : Nat) (label : String) (rf : RestoreFunc)
    (t : Touch) (st : State) : Kept st (CreateCheckBox env p label rf t st).st := by
  constructor <;> rfl

theorem CreateLineEdit_kept (env : Env) (rf : RestoreFunc) (t : Touch) (m : Bool) (st : State) :
    Kept st (CreateLineEdit env rf t m st).st := by
  unfold CreateLineEdit
  split
  · constructor <;> rfl
  · split <;> constructor <;> rfl

theorem CreateCombobox_kept (env : Env) (s : Serializer) (rf : RestoreFunc) (t : Touch)
    (st : State) (r : Created) (h : CreateCombobox env s rf t st = .ok r) : Kept st r.st := by
  unfold CreateCombobox at h
  cases hl : List.lookup st.setting.TypeId st.self.combobox_enumerations with
  | none =>
    simp only [hl] at h
    cases h; constructor <;> rfl
  | some en =>
    simp only [hl, bind_ok] at h
    obtain ⟨v, _, h⟩ := h
    cases h; constructor <;> rfl

theorem CreateSlider_kept (env : Env) (rev : Bool) (rf : RestoreFunc) (t : Touch)
    (st : State) (r : Created) (h : CreateSlider env rev rf t st = .ok r) : Kept st r.st := by
  unfold CreateSlider at h
  simp only [bind_ok] at h
  obtain ⟨a, _, b, _, c, _, h⟩ := h
  cases h; constructor <;> rfl

theorem CreateSpinBox_kept (env : Env) (sfx : String) (rf : RestoreFunc) (t : Touch)
    (st : State) (r : Created) (h : CreateSpinBox env sfx rf t st = .ok r) : Kept st r.st := by
  unfold CreateSpinBox at h
  simp only [bind_ok] at h
  obtain ⟨a, _, b, _, c, _, h⟩ := h
  cases h; constructor <;> rfl

theorem CreateHexEdit_kept (env : Env) (rf : RestoreFunc) (t : Touch)
    (st : State) (r : Created) (h : CreateHexEdit env rf t st = .ok r) : Kept st r.st := by
  unfold CreateHexEdit at h
  simp only [bind_ok] at h
  obtain ⟨a, _, b, _, h⟩ := h
  cases h
  have := CreateLineEdit_kept env rf t false st
  constructor <;> first | exact this.settings | exact this.apply_funcs | exact this.count | exact this.setting | exact this.runtime_lock | exact this.translations | exact this.enumerations | exact this.restore_button | exact this.created | exact this.enabled | exact this.visible | exact this.toolTip

theorem CreateDateTimeEdit_kept (env : Env) (d x : Bool) (rf : RestoreFunc) (t : Touch)
    (st : State) (r : Created) (h : CreateDateTimeEdit env d x rf t st = .ok r) : Kept st r.st := by
  unfold CreateDateTimeEdit at h
  simp only [bind_ok] at h
  obtain ⟨a, _, h⟩ := h
  cases h; constructor <;> rfl

theorem createDataComponent_kept (env : Env) (label : String) (request : RequestType)
    (other : Option Nat) (str : String) (t : Touch) (st : State) (r : Created)
    (h : createDataComponent env label request other str t st = .ok r) : Kept st r.st := by
  unfold createDataComponent at h
  dsimp only at h
  by_cases hb : st.setting.TypeId = .bool
  · rw [if_pos hb] at h
    cases h; exact CreateCheckBox_kept ..
  rw [if_neg hb] at h
  by_cases he : st.setting.IsEnum = true
  · rw [if_pos he] at h
    exact CreateCombobox_kept _ _ _ _ _ _ h
  rw [if_neg he] at h
  by_cases hi : isIntegerType st.setting.TypeId = true
  · rw [if_pos hi] at h
    cases request <;> dsimp only at h
    · cases h; exact CreateLineEdit_kept ..
    · exact CreateCombobox_kept _ _ _ _ _ _ h
    · exact CreateSpinBox_kept _ _ _ _ _ _ h
    · exact CreateSlider_kept _ _ _ _ _ _ h
    · exact CreateSlider_kept _ _ _ _ _ _ h
    · cases h; exact CreateLineEdit_kept ..
    · exact CreateHexEdit_kept _ _ _ _ _ h
    · rw [bind_ok] at h
      obtain ⟨o, _, h⟩ := h
      exact CreateDateTimeEdit_kept _ _ _ _ _ _ _ h
    · simp [UNIMPLEMENTED] at h
  rw [if_neg hi] at h
  by_cases hs : st.setting.TypeId = .string
  · rw [if_pos hs] at h
    cases request <;> dsimp only at h <;>
      first
        | (cases h; exact CreateLineEdit_kept ..)
        | exact CreateCombobox_kept _ _ _ _ _ _ h
        | simp [UNIMPLEMENTED] at h
  rw [if_neg hs] at h
  cases h; exact Kept.unchanged _

theorem CreateCombobox_component (env : Env) (s : Serializer) (rf : RestoreFunc) (t : Touch)
    (st : State) (r : Created) (h : CreateCombobox env s rf t st = .ok r) :
    r.component = some .combobox := by
  unfold CreateCombobox at h
  cases hl : List.lookup st.setting.TypeId st.self.combobox_enumerations with
  | none =>
    simp only [hl] at h
    cases h; rfl
  | some en =>
    simp only [hl, bind_ok] at h
    obtain ⟨v, _, h⟩ := h
    cases h; rfl

theorem CreateLineEdit_component (env : Env) (rf : RestoreFunc) (t : Touch) (m : Bool)
    (st : State) : (CreateLineEdit env rf t m st).component = some .line_edit := by
  unfold CreateLineEdit
  split
  · rfl
  · split <;> rfl

theorem createDataComponent_component (env : Env) (label : String) (request : RequestType)
    (other : Option Nat) (str : String) (t : Touch) (st : State) (r : Created)
    (h : createDataComponent env label request other str t st = .ok r) :
    (r.component = none ↔ noAdapter st.setting = true) := by
  unfold createDataComponent at h
  dsimp only at h
  by_cases hb : st.setting.TypeId = .bool
  · rw [if_pos hb] at h
    cases h
    simp [noAdapter, hb, CreateCheckBox]
  rw [if_neg hb] at h
  by_cases he : st.setting.IsEnum = true
  · rw [if_pos he] at h
    simp [noAdapter, he, CreateCombobox_component _ _ _ _ _ _ h]
  rw [if_neg he] at h
  by_cases hi : isIntegerType st.setting.TypeId = true
  · rw [if_pos hi] at h
    have hn : noAdapter st.setting = false := by simp [noAdapter, hi]
    rw [hn]
    cases request <;> dsimp only at h
    · cases h; simp [CreateLineEdit_component]
    · simp [CreateCombobox_component _ _ _ _ _ _ h]
    · unfold CreateSpinBox at h
      simp only [bind_ok] at h
      obtain ⟨a, _, b, _, c, _, h⟩ := h
      cases h; simp
    · unfold CreateSlider at h
      simp only [bind_ok] at h
      obtain ⟨a, _, b, _, c, _, h⟩ := h
      cases h; simp
    · unfold CreateSlider at h
      simp only [bind_ok] at h
      obtain ⟨a, _, b, _, c, _, h⟩ := h
      cases h; simp
    · cases h; simp [CreateLineEdit_component]
    · unfold CreateHexEdit at h
      simp only [bind_ok] at h
      obtain ⟨a, _, b, _, h⟩ := h
      cases h; simp
    · rw [bind_ok] at h
      obtain ⟨o, _, h⟩ := h
      unfold CreateDateTimeEdit at h
      simp only [bind_ok] at h
      obtain ⟨a, _, h⟩ := h
      cases h; simp
    · simp [UNIMPLEMENTED] at h
  rw [if_neg hi] at h
  by_cases hs : st.setting.TypeId = .string
  · rw [if_pos hs] at h
    have hn : noAdapter st.setting = false := by simp [noAdapter, hs]
    rw [hn]
    cases request <;> dsimp only at h <;>
      first
        | (cases h; simp [CreateLineEdit_component])
        | simp [CreateCombobox_component _ _ _ _ _ _ h]
        | simp [UNIMPLEMENTED] at h
  rw [if_neg hs] at h
  cases h
  simp [noAdapter, hb, he, hi, hs]

theorem createLhs_kept (env : Env) (label : String) (req : Bool) (other : Option Nat)
    (t : Touch) (st : State) (r : Created) (h : createLhs env label req other t st = .ok r) :
    Kept st r.st := by
  unfold createLhs at h
  by_cases hr : req = true
  · rw [if_pos hr] at h
    simp only [bind_ok] at h
    obtain ⟨o, _, c, _, h⟩ := h
    cases h; constructor <;> rfl
  rw [if_neg hr] at h
  by_cases hb : st.setting.TypeId ≠ .bool
  · rw [if_pos hb] at h
    cases h; constructor <;> rfl
  rw [if_neg hb] at h
  cases h; exact Kept.unchanged _

/-- What `SetupComponent` establishes: the store and the registry are as
before, `created` tells whether a data control exists, and for a managed
binding a created widget leaves the matching `load_func`. -/
theorem SetupComponent_spec (env : Env) (label : String) (lf0 : LoadFunc) (managed : Bool)
    (request : RequestType) (other : Option Nat) (str : String) (st st1 : State)
    (lf : LoadFunc)
    (h : SetupComponent env label lf0 managed request other str st = .ok (st1, lf)) :
    st1.settings = st.settings ∧ st1.apply_funcs = st.apply_funcs ∧
    st1.self.setting = st.self.setting ∧
    (st1.self.created = false ↔ noAdapter st.setting = true) := by
  unfold SetupComponent at h
  simp only [bind_ok] at h
  obtain ⟨lhs, hl, made, hm, h⟩ := h
  have k1 := createLhs_kept _ _ _ _ _ _ _ hl
  have k2 := createDataComponent_kept _ _ _ _ _ _ _ _ hm
  have hc := createDataComponent_component _ _ _ _ _ _ _ _ hm
  have hset : lhs.st.setting = st.setting := by
    unfold State.setting
    rw [k1.settings, k1.setting]
    unfold beginSetup
    dsimp only
    split <;> rfl
  rw [hset] at hc
  have b1 : (beginSetup env managed st).1.settings = st.settings := by
    unfold beginSetup; dsimp only; split <;> rfl
  have b2 : (beginSetup env managed st).1.apply_funcs = st.apply_funcs := by
    unfold beginSetup; dsimp only; split <;> rfl
  have b3 : (beginSetup env managed st).1.self.setting = st.self.setting := by
    unfold beginSetup; dsimp only; split <;> rfl
  have b4 : (beginSetup env managed st).1.self.created = true := by
    unfold beginSetup; dsimp only; split <;> rfl
  have e1 : made.st.settings = st.settings := by rw [k2.settings, k1.settings, b1]
  have e2 : made.st.apply_funcs = st.apply_funcs := by rw [k2.apply_funcs, k1.apply_funcs, b2]
  have e3 : made.st.self.setting = st.self.setting := by rw [k2.setting, k1.setting, b3]
  have e4 : made.st.self.created = true := by rw [k2.created, k1.created, b4]
  unfold finishSetup at h
  cases hcomp : made.component with
  | none =>
    simp only [hcomp] at h
    cases h
    exact ⟨e1, e2, e3, by simpa using hc.mp hcomp⟩
  | some c =>
    have hna : noAdapter st.setting = false := by
      cases hq : noAdapter st.setting with
      | false => rfl
      | true => rw [hc.mpr hq] at hcomp; cases hcomp
    simp only [hcomp] at h
    by_cases hman : (!managed) = true
    · rw [if_pos hman] at h
      cases h
      exact ⟨e1, e2, e3, by simp [addWidget, e4, hna]⟩
    rw [if_neg hman] at h
    by_cases hg : env.IsConfiguringGlobal = true
    · rw [if_pos hg] at h
      cases h
      exact ⟨e1, e2, e3, by simp [addWidget, e4, hna]⟩
    rw [if_neg hg] at h
    simp only [bind_ok] at h
    obtain ⟨b, _, h⟩ := h
    cases h
    exact ⟨e1, e2, e3, by simp [addWidget, e4, hna]⟩

/-! ### The handlers keep the frame -/

theorem Frame.refl (st : State) : Frame st st := ⟨rfl, rfl, rfl, rfl⟩

theorem Frame.trans {a b c : State} (h1 : Frame a b) (h2 : Frame b c) : Frame a c :=
  ⟨h2.settings.trans h1.settings, h2.count.trans h1.count,
   h2.apply_funcs.trans h1.apply_funcs, h2.shape.trans h1.shape⟩

theorem Touch.frame (t : Touch) (st st1 : State) (h : t.run st = .ok st1) : Frame st st1 := by
  cases t with
  | noop => cases h; exact Frame.refl _
  | reveal =>
    unfold Touch.run at h
    simp only [bind_ok, deref_ok] at h
    obtain ⟨b, hb, h⟩ := h
    cases h
    refine ⟨rfl, rfl, rfl, ?_⟩
    simp [Widget.erase, hb]

theorem emit_frame (slot : Option Touch) (st st1 : State) (h : emit slot st = .ok st1) :
    Frame st st1 := by
  cases slot with
  | none => cases h; exact Frame.refl _
  | some t => exact Touch.frame t st st1 h

theorem lineEditSetText_frame (text : String) (st st1 : State)
    (h : lineEditSetText text st = .ok st1) : Frame st st1 := by
  unfold lineEditSetText at h
  simp only [bind_ok, deref_ok] at h
  obtain ⟨l, hl, h⟩ := h
  have f1 : Frame st { st with self := { st.self with
      line_edit := some { l with text := l.truncated text } } } := by
    refine ⟨rfl, rfl, rfl, ?_⟩
    simp [Widget.erase, hl]
  split at h
  · cases h; exact f1
  · exact f1.trans (emit_frame _ _ _ h)

theorem onSpinBoxValueChanged_frame (t : Touch) (st st1 : State)
    (h : onSpinBoxValueChanged t st = .ok st1) : Frame st st1 := by
  unfold onSpinBoxValueChanged at h
  simp only [bind_ok, deref_ok] at h
  obtain ⟨s, _, g, _, h⟩ := h
  split at h
  · exact Touch.frame _ _ _ h
  · cases h; exact Frame.refl _

theorem spinBoxSetValue_frame (v : Int) (st st1 : State)
    (h : spinBoxSetValue v st = .ok st1) : Frame st st1 := by
  unfold spinBoxSetValue at h
  simp only [bind_ok, deref_ok] at h
  obtain ⟨s, hs, h⟩ := h
  have f1 : Frame st { st with self := { st.self with spinbox := some (s.bounded v) } } := by
    refine ⟨rfl, rfl, rfl, ?_⟩
    simp [Widget.erase, hs, QSpinBox.bounded]
  split at h
  · cases h; exact f1
  · split at h
    · exact f1.trans (onSpinBoxValueChanged_frame _ _ _ h)
    · cases h; exact f1

theorem onEditingFinished_frame (r : Bool) (c : Int) (t : Touch) (st st1 : State)
    (h : onEditingFinished r c t st = .ok st1) : Frame st st1 := by
  unfold onEditingFinished at h
  simp only [bind_ok, deref_ok] at h
  obtain ⟨d, _, v, _, h⟩ := h
  split at h
  · exact Touch.frame _ _ _ h
  · cases h; exact Frame.refl _

theorem map_set_erase {α : Type} (f : α → α) (l : List α) (k : Nat) (c c1 : α)
    (hk : l[k]? = some c) (hf : f c1 = f c) : (l.set k c1).map f = l.map f := by
  apply List.ext_getElem?
  intro i
  simp only [List.getElem?_map, List.getElem?_set]
  by_cases hik : k = i
  · subst hik
    have hlt : k < l.length := by
      rcases Nat.lt_or_ge k l.length with h | h
      · exact h
      · rw [List.getElem?_eq_none h] at hk; cases hk
    simp [hlt, hk, hf]
  · simp [hik]

theorem RestoreFunc.run_frame (rf : RestoreFunc) (st st1 : State) (h : rf.run st = .ok st1) :
    Frame st st1 := by
  cases rf with
  | noop => cases h; exact Frame.refl _
  | checkBox p =>
    unfold RestoreFunc.run at h
    cases hk : st.self.checkbox with
    | none => simp [hk] at h
    | some k =>
      simp only [hk, bind_ok, deref_ok] at h
      obtain ⟨c, hc, h⟩ := h
      cases h
      refine ⟨rfl, rfl, rfl, ?_⟩
      simp only [Widget.erase]
      rw [map_set_erase QCheckBox.unchecked st.self.checkboxes k c
        { c with checked := decide ((st.settings p).ToStringGlobal = "true") } hc rfl, hk]
  | combobox en =>
    unfold RestoreFunc.run at h
    simp only [bind_ok, deref_ok] at h
    obtain ⟨v, _, c, hc, h⟩ := h
    cases h
    refine ⟨rfl, rfl, rfl, ?_⟩
    simp [Widget.erase, hc, QComboBox.setCurrentIndex]
  | lineEdit => exact lineEditSetText_frame _ _ _ h
  | slider =>
    unfold RestoreFunc.run at h
    simp only [bind_ok, deref_ok] at h
    obtain ⟨v, _, s, hs, h⟩ := h
    cases h
    refine ⟨rfl, rfl, rfl, ?_⟩
    simp [Widget.erase, hs, QSlider.setValue]
  | spinBox =>
    unfold RestoreFunc.run at h
    simp only [bind_ok] at h
    obtain ⟨v, _, h⟩ := h
    exact spinBoxSetValue_frame _ _ _ h
  | hexEdit =>
    unfold RestoreFunc.run at h
    simp only [bind_ok] at h
    obtain ⟨v, _, h⟩ := h
    exact lineEditSetText_frame _ _ _ h
  | dateTimeEdit r c =>
    unfold RestoreFunc.run at h
    simp only [bind_ok, deref_ok] at h
    obtain ⟨v, _, d, hd, h⟩ := h
    cases h
    refine ⟨rfl, rfl, rfl, ?_⟩
    simp [Widget.erase, hd, QDateTimeEdit.setDateTime]

theorem onRestoreClicked_frame (rf crf : RestoreFunc) (st st1 : State)
    (h : onRestoreClicked rf crf st = .ok st1) : Frame st st1 := by
  unfold onRestoreClicked at h
  simp only [bind_ok, deref_ok] at h
  obtain ⟨b, hb, st2, h2, h⟩ := h
  have f1 : Frame st { st with self := { st.self with
      restore_button := some { b with enabled := false, visible := false } } } := by
    refine ⟨rfl, rfl, rfl, ?_⟩
    simp [Widget.erase, hb]
  exact (f1.trans (RestoreFunc.run_frame _ _ _ h2)).trans (RestoreFunc.run_frame _ _ _ h)

theorem deliver_frame (e : UserEvent) (st st1 : State) (h : e.deliver st = .ok st1) :
    Frame st st1 := by
  cases e with
  | clickCheckBox k =>
    unfold UserEvent.deliver at h
    cases hc : st.self.checkboxes[k]? with
    | none => simp only [hc] at h; cases h; exact Frame.refl _
    | some c =>
      simp only [hc] at h
      have f2 := emit_frame _ _ _ h
      refine Frame.trans ?_ f2
      refine ⟨rfl, rfl, rfl, ?_⟩
      simp only [Widget.erase]
      rw [map_set_erase QCheckBox.unchecked st.self.checkboxes k c
        { c with checked := !c.checked } hc rfl]
  | activateItem i =>
    unfold UserEvent.deliver at h
    cases hc : st.self.combobox with
    | none => simp only [hc] at h; cases h; exact Frame.refl _
    | some c =>
      simp only [hc] at h
      split at h
      · have f2 := emit_frame _ _ _ h
        refine Frame.trans ?_ f2
        refine ⟨rfl, rfl, rfl, ?_⟩
        simp [Widget.erase, hc]
      · cases h; exact Frame.refl _
  | editText text =>
    unfold UserEvent.deliver at h
    cases hc : st.self.line_edit with
    | none => simp only [hc] at h; cases h; exact Frame.refl _
    | some l =>
      simp only [hc] at h
      have f1 : Frame st { st with self := { st.self with
          line_edit := some { l with text := text } } } := by
        refine ⟨rfl, rfl, rfl, ?_⟩
        simp [Widget.erase, hc]
      split at h
      · split at h
        · cases h; exact f1
        · exact f1.trans (emit_frame _ _ _ h)
      · cases h; exact Frame.refl _
  | moveSlider v =>
    unfold UserEvent.deliver at h
    cases hc : st.self.slider with
    | none => simp only [hc] at h; cases h; exact Frame.refl _
    | some s =>
      simp only [hc] at h
      have f2 := emit_frame _ _ _ h
      refine Frame.trans ?_ f2
      refine ⟨rfl, rfl, rfl, ?_⟩
      simp [Widget.erase, hc, QSlider.setValue]
  | stepSpinBox v =>
    unfold UserEvent.deliver at h
    cases hc : st.self.spinbox with
    | none => simp only [hc] at h; cases h; exact Frame.refl _
    | some s =>
      simp only [hc] at h
      exact spinBoxSetValue_frame _ _ _ h
  | editDateTime v =>
    unfold UserEvent.deliver at h
    cases hc : st.self.date_time_edit with
    | none => simp only [hc] at h; cases h; exact Frame.refl _
    | some d =>
      simp only [hc] at h
      have f1 : Frame st { st with self := { st.self with
          date_time_edit := some (d.setDateTime v) } } := by
        refine ⟨rfl, rfl, rfl, ?_⟩
        simp [Widget.erase, hc, QDateTimeEdit.setDateTime]
      split at h
      · exact f1.trans (onEditingFinished_frame _ _ _ _ _ h)
      · cases h; exact f1
  | clickRestore =>
    unfold UserEvent.deliver at h
    cases hc : st.self.restore_button with
    | none => simp only [hc] at h; cases h; exact Frame.refl _
    | some b =>
      simp only [hc] at h
      split at h
      · exact onRestoreClicked_frame _ _ _ _ h
      · cases h; exact Frame.refl _

theorem deliverAll_frame (es : List UserEvent) (st st1 : State)
    (h : deliverAll es st = .ok st1) : Frame st st1 := by
  induction es generalizing st with
  | nil => cases h; exact Frame.refl _
  | cons e es ih =>
    unfold deliverAll at h
    simp only [bind_ok] at h
    obtain ⟨st2, h2, h⟩ := h
    exact (deliver_frame _ _ _ h2).trans (ih _ h)

/-! ### The constructor -/

@[simp] theorem State.initial_settings (a : Args) (m : Store) (n : Nat) (r : List ApplyFunc) :
    (State.initial a m n r).settings = m := rfl

@[simp] theorem State.initial_apply_funcs (a : Args) (m : Store) (n : Nat)
    (r : List ApplyFunc) : (State.initial a m n r).apply_funcs = r := rfl

@[simp] theorem State.initial_count (a : Args) (m : Store) (n : Nat) (r : List ApplyFunc) :
    (State.initial a m n r).restore_button_count = n := rfl

@[simp] theorem State.initial_self_setting (a : Args) (m : Store) (n : Nat)
    (r : List ApplyFunc) : (State.initial a m n r).self.setting = a.setting_ := rfl

@[simp] theorem State.initial_translations (a : Args) (m : Store) (n : Nat)
    (r : List ApplyFunc) : (State.initial a m n r).self.translations = a.translations_ := rfl

@[simp] theorem State.initial_setting (a : Args) (m : Store) (n : Nat) (r : List ApplyFunc) :
    (State.initial a m n r).setting = m a.setting_ := rfl

theorem Widget.setEnabled_members (w : Widget) (e : Bool) :
    (w.setEnabled e).setting = w.setting ∧ (w.setEnabled e).created = w.created ∧
    (w.setEnabled e).enabled = e ∧ SameControls w (w.setEnabled e) := by
  cases e
  · exact ⟨rfl, rfl, rfl, ⟨by simp [Widget.setEnabled], rfl, rfl, rfl, rfl, rfl, rfl⟩⟩
  · exact ⟨rfl, rfl, rfl, ⟨rfl, rfl, rfl, rfl, rfl, rfl, rfl⟩⟩

theorem Widget.setEnabled_button (w : Widget) (e : Bool) (b : QPushButton)
    (hb : w.restore_button = some b) :
    (w.setEnabled e).restore_button = some { b with enabled := b.enabled && e } := by
  cases e
  · simp [Widget.setEnabled, hb]
  · simp [Widget.setEnabled, hb]

theorem registerAndShow_frame (env : Env) (this_ : Nat) (a : Args) (tip : String)
    (lf : LoadFunc) (st : State) :
    (registerAndShow env this_ a tip lf st).settings = st.settings ∧
    (registerAndShow env this_ a tip lf st).apply_funcs =
      { this_ := this_, load_func := lf, setting_ := a.setting_ } :: st.apply_funcs ∧
    (registerAndShow env this_ a tip lf st).self.setting = st.self.setting ∧
    (registerAndShow env this_ a tip lf st).self.created = st.self.created ∧
    SameControls st.self (registerAndShow env this_ a tip lf st).self := by
  unfold registerAndShow
  dsimp only
  refine ⟨rfl, rfl, (Widget.setEnabled_members _ _).1, (Widget.setEnabled_members _ _).2.1, ?_⟩
  have m4 := (Widget.setEnabled_members st.self
    (if (st.setting.Switchable && env.IsConfiguringGlobal && !a.runtime_lock_) = true then
      (a.runtime_lock_ || st.setting.RuntimeModfiable) && st.setting.UsingGlobal
    else a.runtime_lock_ || st.setting.RuntimeModfiable)).2.2.2
  exact ⟨m4.checkboxes, m4.checkbox, m4.combobox, m4.line_edit, m4.slider, m4.spinbox,
    m4.date_time_edit⟩

theorem registerAndShow_button (env : Env) (this_ : Nat) (a : Args) (tip : String)
    (lf : LoadFunc) (st : State) (b : QPushButton)
    (hg : env.IsConfiguringGlobal = false) (hb : st.self.restore_button = some b) :
    (registerAndShow env this_ a tip lf st).self.restore_button =
      some { b with enabled := b.enabled && (a.runtime_lock_ || st.setting.RuntimeModfiable) } ∧
    (registerAndShow env this_ a tip lf st).self.enabled =
      (a.runtime_lock_ || st.setting.RuntimeModfiable) := by
  unfold registerAndShow
  simp only [hg, Bool.and_false, Bool.false_and, Bool.false_eq_true, if_false]
  exact ⟨Widget.setEnabled_button _ _ _ hb, (Widget.setEnabled_members _ _).2.2.1⟩

/-- What the constructor establishes. -/
theorem construct_spec (env : Env) (this_ : Nat) (a : Args) (settings : Store) (n : Nat)
    (reg : List ApplyFunc) (st0 : State)
    (h : Widget.construct env this_ a settings n reg = .ok st0) :
    st0.settings = settings ∧ st0.self.setting = a.setting_ ∧
    (constructionSkipped env a settings = true →
      st0.self.created = false ∧ st0.apply_funcs = reg) ∧
    (constructionSkipped env a settings = false →
      st0.self.created = true ∧
      ∃ lf, st0.apply_funcs = { this_ := this_, load_func := lf, setting_ := a.setting_ } :: reg) := by
  unfold Widget.construct at h
  dsimp only at h
  change (if (!env.IsConfiguringGlobal && !(settings a.setting_).Switchable) = true then _
    else if (resolveLabel a.translations_ (settings a.setting_)).1 = "" then _ else _) = _ at h
  by_cases h1 : (!env.IsConfiguringGlobal && !(settings a.setting_).Switchable) = true
  · rw [if_pos h1] at h
    cases h
    refine ⟨rfl, rfl, fun _ => ⟨rfl, rfl⟩, fun hs => ?_⟩
    simp only [constructionSkipped, h1, Bool.true_or] at hs
    cases hs
  rw [if_neg h1] at h
  by_cases h2 : (resolveLabel a.translations_ (settings a.setting_)).1 = ""
  · rw [if_pos h2] at h
    cases h
    refine ⟨rfl, rfl, fun _ => ⟨rfl, rfl⟩, fun hs => ?_⟩
    simp [constructionSkipped, h2] at hs
  rw [if_neg h2] at h
  simp only [bind_ok] at h
  obtain ⟨done, hd, h⟩ := h
  obtain ⟨st1, lf⟩ := done
  obtain ⟨e1, e2, e3, e4⟩ := SetupComponent_spec _ _ _ _ _ _ _ _ _ _ hd
  simp only [State.initial_settings, State.initial_apply_funcs, State.initial_self_setting,
    State.initial_setting] at e1 e2 e3 e4
  have hna : (st1.self.created = false ↔ noAdapter (settings a.setting_) = true) := e4
  have hsk : constructionSkipped env a settings = noAdapter (settings a.setting_) := by
    simp only [constructionSkipped]
    simp only [Bool.not_eq_true] at h1
    rw [h1]
    simp [h2]
  rw [hsk]
  dsimp only at h
  by_cases h3 : (!st1.self.created) = true
  · rw [if_pos h3] at h
    cases h
    have hc : st0.self.created = false := by simpa using h3
    refine ⟨e1, e3, fun _ => ⟨hc, e2⟩, fun hs => ?_⟩
    rw [hna.mp hc] at hs
    cases hs
  rw [if_neg h3] at h
  cases h
  have hc : st1.self.created = true := by simpa using h3
  obtain ⟨r1, r2, r3, r4, _⟩ := registerAndShow_frame env this_ a
    (resolveLabel (State.initial a settings n reg).self.translations
      (State.initial a settings n reg).setting).2 lf st1
  refine ⟨r1.trans e1, r3.trans e3, fun hs => ?_, fun _ => ⟨r4.trans hc, lf, ?_⟩⟩
  · rw [hna.mpr hs] at hc
    cases hc
  · rw [r2, e2]

/-- C1: A commit callback registered by the constructor is owned by the
constructed setting; invoked in any state it runs the load function when that
setting is runtime-modifiable or the system is not powered on, and otherwise it
does not run it and returns the state, settings store included, unchanged. -/
theorem commit_callback_gate (env : Env) (this_ : Nat) (a : Args) (settings : Store)
    (n : Nat) (reg : List ApplyFunc) (st0 : State) (f : ApplyFunc) (powered_on : Bool)
    (st : State)
    (hbuilt : Widget.construct env this_ a settings n reg = .ok st0)
    (hf : f ∈ st0.apply_funcs) (hnew : f ∉ reg) :
    f.setting_ = a.setting_ ∧
    ((st.settings a.setting_).RuntimeModfiable = true ∨ powered_on = false →
      f.call powered_on st = f.load_func.run st) ∧
    ((st.settings a.setting_).RuntimeModfiable = false ∧ powered_on = true →
      f.call powered_on st = .ok st) := by
  obtain ⟨_, _, hs, hn⟩ := construct_spec _ _ _ _ _ _ _ hbuilt
  have hset : f.setting_ = a.setting_ := by
    cases hsk : constructionSkipped env a settings with
    | true =>
      rw [(hs hsk).2] at hf
      exact absurd hf hnew
    | false =>
      obtain ⟨_, lf, hreg⟩ := hn hsk
      rw [hreg] at hf
      rcases List.mem_cons.mp hf with h | h
      · rw [h]
      · exact absurd h hnew
  refine ⟨hset, ?_, ?_⟩
  · intro h
    unfold ApplyFunc.call
    rw [hset]
    rcases h with h | h
    · simp [h]
    · simp [h]
  · rintro ⟨h1, h2⟩
    unfold ApplyFunc.call
    rw [hset]
    simp [h1, h2]

/-- C4: From construction on, through any sequence of user edits and restore
clicks that runs to completion, with no commit callback invoked, the settings
store is the one the constructor was given: every setting keeps its value
string, its global-value string and its using-global flag. -/
theorem settings_untouched_without_commit (env : Env) (this_ : Nat) (a : Args)
    (settings : Store) (n : Nat) (reg : List ApplyFunc) (st0 st : State)
    (events : List UserEvent)
    (hbuilt : Widget.construct env this_ a settings n reg = .ok st0)
    (hrun : deliverAll events st0 = .ok st) :
    st.settings = settings := by
  rw [(deliverAll_frame _ _ _ hrun).settings]
  exact (construct_spec _ _ _ _ _ _ _ hbuilt).1

theorem registered_append_one (env : Env) (settings : Store) (base : Nat) (a : Args)
    (rest : List Args) :
    (registered env settings base (a :: rest)).reverse =
      (registered env settings (base + 1) rest).reverse ++
        (if constructionSkipped env a settings then [] else [(base, a.setting_)]) := by
  simp only [registered, List.reverse_append]
  split <;> simp

/-- C8: The constructions of a dialog, run in order to completion, add one
`Widget` each; a `Widget` is valid exactly when its construction was not
skipped (overrides configured for a non-switchable setting, empty label, or no
control adapter); the registry afterwards is the previous registry with the
callbacks of the valid widgets in front of it, in reverse construction order. -/
theorem registry_after_constructions (env : Env) (args : List Args) (d d1 : Dialog)
    (h : Dialog.constructAll env args d = .ok d1) :
    d1.settings = d.settings ∧
    ∃ ws news,
      d1.widgets = d.widgets ++ ws ∧
      ws.map Widget.Valid = args.map (fun a => !constructionSkipped env a d.settings) ∧
      d1.apply_funcs = news ++ d.apply_funcs ∧
      news.map ApplyFunc.key = (registered env d.settings d.widgets.length args).reverse := by
  induction args generalizing d with
  | nil =>
    cases h
    exact ⟨rfl, [], [], by simp, rfl, rfl, rfl⟩
  | cons a rest ih =>
    unfold Dialog.constructAll at h
    simp only [bind_ok] at h
    obtain ⟨d2, h2, h⟩ := h
    unfold Dialog.construct at h2
    simp only [bind_ok] at h2
    obtain ⟨st0, hc, h2⟩ := h2
    cases h2
    obtain ⟨e1, _, hs, hn⟩ := construct_spec _ _ _ _ _ _ _ hc
    obtain ⟨i1, ws, news, i2, i3, i4, i5⟩ := ih _ h
    dsimp only at i1 i2 i3 i4 i5
    rw [e1] at i1 i3 i5
    refine ⟨i1, st0.self :: ws, ?_⟩
    rw [registered_append_one]
    cases hsk : constructionSkipped env a d.settings with
    | true =>
      obtain ⟨c1, c2⟩ := hs hsk
      refine ⟨news, by rw [i2]; simp, ?_, ?_, ?_⟩
      · simp [Widget.Valid, c1, hsk, i3]
      · rw [i4, c2]
      · simpa using i5
    | false =>
      obtain ⟨c1, lf, c2⟩ := hn hsk
      refine ⟨news ++ [{ this_ := d.widgets.length, load_func := lf, setting_ := a.setting_ }],
        by rw [i2]; simp, ?_, ?_, ?_⟩
      · simp [Widget.Valid, c1, hsk, i3]
      · rw [i4, c2]; simp
      · simp [ApplyFunc.key] at i5 ⊢
        exact i5



theorem SetupComponent_parts (env : Env) (label : String) (lf0 : LoadFunc) (managed : Bool)
    (request : RequestType) (other : Option Nat) (str : String) (st st1 : State)
    (lf : LoadFunc)
    (h : SetupComponent env label lf0 managed request other str st = .ok (st1, lf)) :
    ∃ lhs made,
      createLhs env label (requireCheckbox st.settings other) other
        (beginSetup env managed st).2 (beginSetup env managed st).1 = .ok lhs ∧
      createDataComponent env label request other str (beginSetup env managed st).2 lhs.st
        = .ok made ∧
      finishSetup env lf0 managed other (requireCheckbox st.settings other) lhs.serializer
        lhs.restore_func made = .ok (st1, lf) := by
  unfold SetupComponent at h
  simp only [bind_ok] at h
  obtain ⟨lhs, hl, made, hm, h⟩ := h
  exact ⟨lhs, made, hl, hm, h⟩

theorem finishSetup_custom (env : Env) (lf0 : LoadFunc) (other : Option Nat) (req : Bool)
    (cser : Serializer) (crf : RestoreFunc) (made : Created) (st1 : State) (lf : LoadFunc)
    (hg : env.IsConfiguringGlobal = false)
    (h : finishSetup env lf0 true other req cser crf made = .ok (st1, lf))
    (hv : st1.self.created = true) :
    ∃ b, made.st.self.restore_button = some b ∧
      st1.self.restore_button = some { b with clicked := some (made.restore_func, crf) } ∧
      lf = .configuringCustom made.serializer req cser other ∧
      SameControls made.st.self st1.self ∧ st1.settings = made.st.settings ∧
      st1.self.setting = made.st.self.setting := by
  unfold finishSetup at h
  cases hcomp : made.component with
  | none =>
    simp only [hcomp] at h
    cases h
    simp at hv
  | some c =>
    simp only [hcomp, hg] at h
    simp only [Bool.not_true, Bool.false_eq_true, if_false, bind_ok, deref_ok] at h
    obtain ⟨b, hb, h⟩ := h
    cases h
    exact ⟨b, hb, rfl, rfl, ⟨rfl, rfl, rfl, rfl, rfl, rfl, rfl⟩, rfl, rfl⟩

theorem beginSetup_custom (env : Env) (st : State) (hg : env.IsConfiguringGlobal = false) :
    (beginSetup env true st).2 = .reveal ∧
    (beginSetup env true st).1.self.restore_button =
      some { objectName := st.restore_button_count + 1, enabled := !st.setting.UsingGlobal,
             visible := !st.setting.UsingGlobal, clicked := none } ∧
    (beginSetup env true st).1.self.created = true ∧
    (beginSetup env true st).1.settings = st.settings ∧
    (beginSetup env true st).1.self.setting = st.self.setting := by
  unfold beginSetup
  simp [hg, CreateRestoreGlobalButton, State.setting]

/-- What the constructor leaves for a managed binding in override mode. -/
theorem construct_custom (env : Env) (this_ : Nat) (a : Args) (settings : Store) (n : Nat)
    (reg : List ApplyFunc) (st0 : State)
    (hg : env.IsConfiguringGlobal = false) (hm : a.managed = true)
    (h : Widget.construct env this_ a settings n reg = .ok st0)
    (hv : st0.self.created = true) :
    ∃ lhs made,
      createLhs env (resolveLabel a.translations_ (settings a.setting_)).1
        (requireCheckbox settings a.other_setting) a.other_setting .reveal
        (beginSetup env true (State.initial a settings n reg)).1 = .ok lhs ∧
      createDataComponent env (resolveLabel a.translations_ (settings a.setting_)).1
        a.request a.other_setting a.string .reveal lhs.st = .ok made ∧
      st0.self.restore_button =
        some { objectName := n + 1,
               enabled := !(settings a.setting_).UsingGlobal &&
                 (a.runtime_lock_ || (settings a.setting_).RuntimeModfiable),
               visible := !(settings a.setting_).UsingGlobal,
               clicked := some (made.restore_func, lhs.restore_func) } ∧
      st0.apply_funcs =
        { this_ := this_,
          load_func := .configuringCustom made.serializer
            (requireCheckbox settings a.other_setting) lhs.serializer a.other_setting,
          setting_ := a.setting_ } :: reg ∧
      SameControls made.st.self st0.self ∧
      st0.settings = settings ∧ st0.self.setting = a.setting_ ∧
      st0.self.enabled = (a.runtime_lock_ || (settings a.setting_).RuntimeModfiable) := by
  unfold Widget.construct at h
  dsimp only at h
  change (if (!env.IsConfiguringGlobal && !(settings a.setting_).Switchable) = true then _
    else if (resolveLabel a.translations_ (settings a.setting_)).1 = "" then _ else _) = _ at h
  by_cases h1 : (!env.IsConfiguringGlobal && !(settings a.setting_).Switchable) = true
  · rw [if_pos h1] at h
    cases h
    cases hv
  rw [if_neg h1] at h
  by_cases h2 : (resolveLabel a.translations_ (settings a.setting_)).1 = ""
  · rw [if_pos h2] at h
    cases h
    cases hv
  rw [if_neg h2] at h
  simp only [bind_ok] at h
  obtain ⟨done, hd, h⟩ := h
  obtain ⟨st1, lf⟩ := done
  dsimp only at h
  by_cases h3 : (!st1.self.created) = true
  · rw [if_pos h3] at h
    cases h
    rw [hv] at h3
    cases h3
  rw [if_neg h3] at h
  cases h
  have hc : st1.self.created = true := by simpa using h3
  obtain ⟨lhs, made, hl, hmade, hfin⟩ := SetupComponent_parts _ _ _ _ _ _ _ _ _ _ hd
  simp only [State.initial_settings, State.initial_translations, State.initial_setting]
    at hl hmade hfin hd
  rw [hm] at hl hmade hfin
  obtain ⟨t1, t2, t3, t4, t5⟩ := beginSetup_custom env (State.initial a settings n reg) hg
  rw [t1] at hl hmade
  have k1 := createLhs_kept _ _ _ _ _ _ _ hl
  have k2 := createDataComponent_kept _ _ _ _ _ _ _ _ hmade
  obtain ⟨b, hb, hb1, hlf, hsc, hset, hsg⟩ := finishSetup_custom _ _ _ _ _ _ _ _ _ hg hfin hc
  rw [k2.restore_button, k1.restore_button, t2] at hb
  simp only [State.initial_count, State.initial_setting] at hb
  cases hb
  obtain ⟨_, e2, _, _⟩ := SetupComponent_spec _ _ _ _ _ _ _ _ _ _ hd
  simp only [State.initial_apply_funcs, State.initial_count, State.initial_setting,
    State.initial_settings, State.initial_self_setting] at e2 t4 t5
  obtain ⟨r1, r2, r3, _, r5⟩ := registerAndShow_frame env this_ a
    (resolveLabel (State.initial a settings n reg).self.translations
      (State.initial a settings n reg).setting).2 lf st1
  obtain ⟨r6, r7⟩ := registerAndShow_button env this_ a
    (resolveLabel (State.initial a settings n reg).self.translations
      (State.initial a settings n reg).setting).2 lf st1 _ hg hb1
  have hset1 : st1.settings = settings := by rw [hset, k2.settings, k1.settings, t4]
  have hsg1 : st1.self.setting = a.setting_ := by rw [hsg, k2.setting, k1.setting, t5]
  have hcur : st1.setting = settings a.setting_ := by
    unfold State.setting
    rw [hset1, hsg1]
  rw [hcur] at r6 r7
  refine ⟨lhs, made, hl, hmade, r6, ?_, ?_, r1.trans hset1, r3.trans hsg1, r7⟩
  · rw [r2, e2, hlf]
  · exact ⟨r5.checkboxes.trans hsc.checkboxes, r5.checkbox.trans hsc.checkbox,
      r5.combobox.trans hsc.combobox, r5.line_edit.trans hsc.line_edit,
      r5.slider.trans hsc.slider, r5.spinbox.trans hsc.spinbox,
      r5.date_time_edit.trans hsc.date_time_edit⟩

/-- C9 (amended): A managed binding built in override mode for a switchable
setting has its restore button disabled and hidden exactly when the setting
reports using the global value; the button is enabled and visible exactly when
the setting does not report it and the constructor leaves the `Widget` enabled
(`runtime_lock` is true or the setting is runtime-modifiable); when the setting
does not report it and the `Widget` is disabled, the button is visible and
disabled. -/
theorem fresh_binding_button_state (env : Env) (this_ : Nat) (a : Args) (settings : Store)
    (n : Nat) (reg : List ApplyFunc) (st0 : State)
    (hmode : env.IsConfiguringGlobal = false) (hmanaged : a.managed = true)
    (hbuilt : Widget.construct env this_ a settings n reg = .ok st0)
    (hvalid : st0.self.Valid = true) :
    (settings a.setting_).Switchable = true ∧
    st0.self.enabled = (a.runtime_lock_ || (settings a.setting_).RuntimeModfiable) ∧
    ∃ b, st0.self.restore_button = some b ∧
      ((b.enabled = false ∧ b.visible = false) ↔ (settings a.setting_).UsingGlobal = true) ∧
      ((b.enabled = true ∧ b.visible = true) ↔
        ((settings a.setting_).UsingGlobal = false ∧
          (a.runtime_lock_ = true ∨ (settings a.setting_).RuntimeModfiable = true))) ∧
      ((settings a.setting_).UsingGlobal = false → a.runtime_lock_ = false →
        (settings a.setting_).RuntimeModfiable = false →
        b.enabled = false ∧ b.visible = true) := by
  obtain ⟨lhs, made, _, _, hb, _, _, _, _, hen⟩ :=
    construct_custom _ _ _ _ _ _ _ hmode hmanaged hbuilt hvalid
  refine ⟨?_, hen, ?_⟩
  · obtain ⟨_, _, hs, _⟩ := construct_spec _ _ _ _ _ _ _ hbuilt
    cases hsw : (settings a.setting_).Switchable with
    | true => rfl
    | false =>
      have : constructionSkipped env a settings = true := by
        simp [constructionSkipped, hmode, hsw]
      have := (hs this).1
      rw [Widget.Valid] at hvalid
      rw [hvalid] at this
      cases this
  · refine ⟨_, hb, ?_, ?_, ?_⟩ <;> cases (settings a.setting_).UsingGlobal <;>
      cases a.runtime_lock_ <;> cases (settings a.setting_).RuntimeModfiable <;> simp

/-! ### Commit in override mode -/

@[simp] theorem Store.SetGlobal_flag (m : Store) (p q : Nat) (g : Bool) :
    (m.SetGlobal p g q).UsingGlobal = if q = p then g else (m q).UsingGlobal := by
  unfold Store.SetGlobal
  by_cases h : q = p
  · subst h; simp [BasicSetting.SetGlobal]
  · simp [Function.update_noteq h, h]

@[simp] theorem Store.LoadString_flag (m : Store) (p q : Nat) (v : String) :
    (m.LoadString p v q).UsingGlobal = (m q).UsingGlobal := by
  unfold Store.LoadString
  by_cases h : q = p
  · subst h; simp [BasicSetting.LoadString]
  · simp [Function.update_noteq h]

@[simp] theorem Store.SetGlobal_value (m : Store) (p q : Nat) (g : Bool) :
    (m.SetGlobal p g q).ToString = (m q).ToString := by
  unfold Store.SetGlobal
  by_cases h : q = p
  · subst h; simp [BasicSetting.SetGlobal]
  · simp [Function.update_noteq h]

@[simp] theorem Store.LoadString_value (m : Store) (p q : Nat) (v : String) :
    (m.LoadString p v q).ToString = if q = p then v else (m q).ToString := by
  unfold Store.LoadString
  by_cases h : q = p
  · subst h; simp [BasicSetting.LoadString]
  · simp [Function.update_noteq h, h]

theorem Serializer.run_settings (ser : Serializer) (st : State) (m : Store) :
    ser.run { st with settings := m } = ser.run st := by
  cases ser <;> rfl

theorem loadSerialized_ok (p : Nat) (ser : Serializer) (st st1 : State) :
    loadSerialized p ser st = .ok st1 ↔
      ∃ v, ser.run st = .ok v ∧ st1 = { st with settings := st.settings.LoadString p v } := by
  unfold loadSerialized
  simp only [bind_ok]
  constructor
  · rintro ⟨v, hv, h⟩
    cases h
    exact ⟨v, hv, rfl⟩
  · rintro ⟨v, hv, h⟩
    exact ⟨v, hv, by rw [h]; rfl⟩

theorem createLhs_serializer (env : Env) (label : String) (other : Option Nat) (t : Touch)
    (st : State) (r : Created) (h : createLhs env label true other t st = .ok r) :
    r.serializer = .checkBox := by
  unfold createLhs at h
  simp only [if_true, bind_ok] at h
  obtain ⟨o, _, c, _, h⟩ := h
  cases h
  rfl

/-- The commit callback of a managed binding built in override mode holds the
load function `configuringCustom`. Run in any later state of the binding, it
leaves the store the specification describes: the using-global flag becomes
true exactly when the restore button is disabled; with the button disabled no
string is written to any setting; with the button enabled the value returned
by the serializer is written to the setting and, when a boolean companion
exists, the value returned by `checkbox_serializer` is written to it. Which
check box `checkbox_serializer` reads is settled separately. -/
theorem override_commit (env : Env) (this_ : Nat) (a : Args) (settings : Store) (n : Nat)
    (reg : List ApplyFunc) (st0 : State) (f : ApplyFunc) (st : State) (b : QPushButton)
    (hmode : env.IsConfiguringGlobal = false) (hmanaged : a.managed = true)
    (hbuilt : Widget.construct env this_ a settings n reg = .ok st0)
    (hf : f ∈ st0.apply_funcs) (hnew : f ∉ reg)
    (hs : st.self.setting = a.setting_) (hb : st.self.restore_button = some b) :
    ∃ ser cser,
      f.load_func = .configuringCustom ser (requireCheckbox settings a.other_setting) cser
        a.other_setting ∧
      (requireCheckbox settings a.other_setting = true → cser = .checkBox) ∧
      (b.enabled = false →
        f.load_func.run st =
          .ok { st with
                settings := commitStore st.settings a.setting_
                  (booleanCompanion settings a.other_setting) false "" "" }) ∧
      (b.enabled = true → ∀ v cv, ser.run st = .ok v →
        (requireCheckbox settings a.other_setting = true → cser.run st = .ok cv) →
        f.load_func.run st =
          .ok { st with
                settings := commitStore st.settings a.setting_
                  (booleanCompanion settings a.other_setting) true v cv }) ∧
      (∀ st1, f.load_func.run st = .ok st1 →
        (st1.settings a.setting_).UsingGlobal = !b.enabled ∧
        (b.enabled = false → ∀ p, (st1.settings p).ToString = (st.settings p).ToString)) := by
  obtain ⟨_, _, hskip, hkeep⟩ := construct_spec _ _ _ _ _ _ _ hbuilt
  have hv : st0.self.created = true := by
    cases hsk : constructionSkipped env a settings with
    | true =>
      rw [(hskip hsk).2] at hf
      exact absurd hf hnew
    | false => exact (hkeep hsk).1
  obtain ⟨lhs, made, hl, _, _, hreg, _, _, _⟩ :=
    construct_custom _ _ _ _ _ _ _ hmode hmanaged hbuilt hv
  rw [hreg] at hf
  have hfe : f = ApplyFunc.mk this_ (.configuringCustom made.serializer
      (requireCheckbox settings a.other_setting) lhs.serializer a.other_setting)
      a.setting_ := by
    rcases List.mem_cons.mp hf with h | h
    · exact h
    · exact absurd h hnew
  subst hfe
  refine ⟨made.serializer, lhs.serializer, rfl, ?_, ?_, ?_, ?_⟩
  · intro hr
    rw [hr] at hl
    exact createLhs_serializer _ _ _ _ _ _ hl
  · intro he
    cases hr : requireCheckbox settings a.other_setting with
    | false =>
      simp [LoadFunc.run, hb, deref, he, hs, bind, Except.bind, commitStore, booleanCompanion,
        hr]
    | true =>
      have ho : ∃ o, a.other_setting = some o := by
        unfold requireCheckbox at hr
        cases hoo : a.other_setting with
        | none => rw [hoo] at hr; cases hr
        | some o => exact ⟨o, rfl⟩
      obtain ⟨o, ho⟩ := ho
      rw [ho] at hr
      simp [LoadFunc.run, hb, deref, he, hs, bind, Except.bind, commitStore, booleanCompanion,
        hr, ho]
  · intro he v cv hser hcser
    cases hr : requireCheckbox settings a.other_setting with
    | false =>
      simp [LoadFunc.run, hb, deref, he, hs, bind, Except.bind, commitStore, booleanCompanion,
        hr, loadSerialized, Serializer.run_settings, hser, pure, Except.pure]
    | true =>
      have ho : ∃ o, a.other_setting = some o := by
        unfold requireCheckbox at hr
        cases hoo : a.other_setting with
        | none => rw [hoo] at hr; cases hr
        | some o => exact ⟨o, rfl⟩
      obtain ⟨o, ho⟩ := ho
      have hcv := hcser hr
      rw [ho] at hr
      simp [LoadFunc.run, hb, deref, he, hs, bind, Except.bind, commitStore, booleanCompanion,
        hr, ho, loadSerialized, Serializer.run_settings, hser, hcv, pure, Except.pure]
  · intro st1 hrun
    unfold LoadFunc.run at hrun
    simp only [bind_ok, deref_ok] at hrun
    obtain ⟨b1, hb1, st2, h2, hrun⟩ := hrun
    rw [hb] at hb1
    cases hb1
    cases he : b.enabled with
    | false =>
      simp only [he, Bool.not_false, Bool.not_true, Bool.false_eq_true, if_false] at h2 hrun
      cases h2
      by_cases hr : requireCheckbox settings a.other_setting = true
      · rw [if_pos hr] at hrun
        simp only [bind_ok, deref_ok] at hrun
        obtain ⟨o, _, hrun⟩ := hrun
        cases hrun
        refine ⟨?_, fun _ p => ?_⟩
        · simp [hs]
        · simp
      · rw [if_neg hr] at hrun
        cases hrun
        refine ⟨?_, fun _ p => ?_⟩
        · simp [hs]
        · simp
    | true =>
      simp only [he, Bool.not_true, Bool.not_false, if_true, loadSerialized_ok] at h2 hrun
      obtain ⟨v, _, h2⟩ := h2
      subst h2
      by_cases hr : requireCheckbox settings a.other_setting = true
      · rw [if_pos hr] at hrun
        simp only [bind_ok, deref_ok, loadSerialized_ok] at hrun
        obtain ⟨o, _, cv, _, hrun⟩ := hrun
        subst hrun
        refine ⟨?_, fun h => by cases h⟩
        simp [hs]
      · rw [if_neg hr] at hrun
        cases hrun
        refine ⟨?_, fun h => by cases h⟩
        simp [hs]

/-! ### Reading back what the standard library writes -/

theorem hexValue_digitChar (d : Nat) (h : d < 16) : hexValue (Nat.digitChar d) = some d := by
  interval_cases d <;> decide

theorem digitVal_digitChar (base d : Nat) (h : d < base) (hb : base ≤ 16) :
    digitVal base (Nat.digitChar d) = some d := by
  unfold digitVal
  rw [hexValue_digitChar d (by omega)]
  simp [h]

theorem digitVal_isSome_hex (base : Nat) (c : Char) (h : (digitVal base c).isSome = true) :
    (hexValue c).isSome = true := by
  unfold digitVal at h
  cases hv : hexValue c with
  | none => rw [hv] at h; cases h
  | some d => rfl

theorem hexValue_not_special (c : Char) (h : (hexValue c).isSome = true) :
    isspace c = false ∧ c ≠ '-' ∧ c ≠ '+' ∧ c ≠ 'x' ∧ c ≠ 'X' := by
  refine ⟨?_, ?_, ?_, ?_, ?_⟩
  · cases hs : isspace c with
    | false => rfl
    | true =>
      unfold isspace at hs
      simp only [Bool.or_eq_true, decide_eq_true_eq] at hs
      rcases hs with ((((hs | hs) | hs) | hs) | hs) | hs <;> subst hs <;> exact absurd h (by decide)
  all_goals
    intro hc
    subst hc
    exact absurd h (by decide)

/-- Scanning the digits of a number written by `natDigits`. -/
theorem scanDigits_natDigits (base : Nat) (hb2 : 2 ≤ base) (hb : base ≤ 16) (fuel : Nat) :
    ∀ (n acc : Nat) (rest : List Char), n < base ^ fuel →
      scanDigits base (natDigits base fuel n ++ rest) acc =
        scanDigits base rest (acc * base ^ (natDigits base fuel n).length + n) := by
  induction fuel with
  | zero =>
    intro n acc rest hn
    simp at hn
    subst hn
    simp [natDigits]
  | succ fuel ih =>
    intro n acc rest hn
    unfold natDigits
    by_cases hlt : n < base
    · rw [if_pos hlt]
      simp [scanDigits, digitVal_digitChar base n hlt hb]
    · rw [if_neg hlt]
      have hdiv : n / base < base ^ fuel := by
        rw [Nat.div_lt_iff_lt_mul (by omega)]
        rw [pow_succ] at hn
        exact hn
      have hmod : n % base < base := Nat.mod_lt _ (by omega)
      rw [List.append_assoc, ih (n / base) acc _ hdiv]
      simp only [List.singleton_append, scanDigits, digitVal_digitChar base _ hmod hb,
        List.length_append, List.length_singleton, pow_succ]
      congr 1
      have := Nat.div_add_mod n base
      nlinarith [Nat.div_add_mod n base, Nat.mul_comm base (n / base)]

theorem lt_pow_succ_self (base n : Nat) (hb2 : 2 ≤ base) : n < base ^ (n + 1) := by
  calc n < 2 ^ n := Nat.lt_two_pow n
    _ ≤ 2 ^ (n + 1) := Nat.pow_le_pow_right (by omega) (by omega)
    _ ≤ base ^ (n + 1) := Nat.pow_le_pow_left hb2 _

/-- The first character written by `natDigits` is a digit. -/
theorem natDigits_head (base : Nat) (hb : base ≤ 16) (hb2 : 2 ≤ base) (fuel : Nat) :
    ∀ n : Nat, ∃ c cs, natDigits base (fuel + 1) n = c :: cs ∧
      (digitVal base c).isSome = true := by
  induction fuel with
  | zero =>
    intro n
    unfold natDigits
    by_cases hlt : n < base
    · rw [if_pos hlt]
      exact ⟨_, [], rfl, by rw [digitVal_digitChar base n hlt hb]; rfl⟩
    · rw [if_neg hlt]
      have hmod : n % base < base := Nat.mod_lt _ (by omega)
      exact ⟨Nat.digitChar (n % base), [], by simp [natDigits],
        by rw [digitVal_digitChar base _ hmod hb]; rfl⟩
  | succ fuel ih =>
    intro n
    unfold natDigits
    by_cases hlt : n < base
    · rw [if_pos hlt]
      exact ⟨_, [], rfl, by rw [digitVal_digitChar base n hlt hb]; rfl⟩
    · rw [if_neg hlt]
      obtain ⟨c, cs, hc, hd⟩ := ih (n / base)
      rw [hc]
      exact ⟨c, cs ++ [Nat.digitChar (n % base)], rfl, hd⟩

/-- Reading a text that starts with a digit of the base, and in base 16 has no
`x` in second place: no blank, sign or prefix is skipped. -/
theorem scanInteger_digit_head (base : Nat) (c : Char) (cs : List Char)
    (hc : (digitVal base c).isSome = true)
    (hx : base = 16 → cs.head? ≠ some 'x' ∧ cs.head? ≠ some 'X') :
    scanInteger base (c :: cs) = some (false, scanDigits base (c :: cs) 0) := by
  obtain ⟨h1, h2, h3, _, _⟩ := hexValue_not_special c (digitVal_isSome_hex _ _ hc)
  unfold scanInteger
  have hd : List.dropWhile isspace (c :: cs) = c :: cs := by simp [List.dropWhile, h1]
  simp only [hd, List.head?_cons, Option.some.injEq, h2, h3, or_self, if_false, List.tail_cons]
  have h16 : ¬ (base = 16 ∧ c = '0' ∧ (cs.head? = some 'x' ∨ cs.head? = some 'X') ∧
      startsWithDigit 16 cs.tail = true) := by
    rintro ⟨hb, _, hxx, _⟩
    rcases hxx with h | h
    · exact (hx hb).1 h
    · exact (hx hb).2 h
  rw [if_neg h16]
  simp [startsWithDigit, hc]

/-- Reading a minus sign followed by a digit of base 10. -/
theorem scanInteger_minus_digit (c : Char) (cs : List Char)
    (hc : (digitVal 10 c).isSome = true) :
    scanInteger 10 ('-' :: c :: cs) = some (true, scanDigits 10 (c :: cs) 0) := by
  unfold scanInteger
  have hd : List.dropWhile isspace ('-' :: c :: cs) = '-' :: c :: cs := by
    simp [List.dropWhile, show isspace '-' = false by decide]
  simp only [hd, List.head?_cons, true_or, if_true, List.tail_cons]
  have h16 : ¬ ((10 : Nat) = 16 ∧ c = '0' ∧ (cs.head? = some 'x' ∨ cs.head? = some 'X') ∧
      startsWithDigit 16 cs.tail = true) := by
    rintro ⟨hb, _⟩
    omega
  simp [startsWithDigit, hc]

theorem scanDigits_decimal (n : Nat) : scanDigits 10 (decimal n) 0 = n := by
  have := scanDigits_natDigits 10 (by omega) (by omega) (n + 1) n 0 []
    (lt_pow_succ_self 10 n (by omega))
  simpa [decimal, scanDigits] using this

theorem scanInteger_to_string (v : Int) :
    scanInteger 10 (to_string v).toList = some (decide (v < 0), v.natAbs) := by
  obtain ⟨c, cs, hcs, hd⟩ := natDigits_head 10 (by omega) (by omega) v.natAbs v.natAbs
  have hsd := scanDigits_decimal v.natAbs
  unfold decimal at hsd
  unfold to_string decimal
  by_cases hv : v < 0
  · rw [if_pos hv]
    simp only [String.toList, hcs]
    rw [scanInteger_minus_digit c cs hd, ← hcs, hsd]
    simp [hv]
  · rw [if_neg hv]
    simp only [String.toList, hcs]
    rw [scanInteger_digit_head 10 c cs hd (by omega), ← hcs, hsd]
    simp [hv]

theorem signedValue_natAbs (v : Int) : signedValue (decide (v < 0), v.natAbs) = v := by
  unfold signedValue
  by_cases hv : v < 0
  · simp only [hv, decide_True, if_true]; omega
  · simp only [hv, decide_False, Bool.false_eq_true, if_false]; omega

/-- `std::stoi` reads back what `std::to_string` writes for an `int`. -/
theorem stoi_to_string (v : Int) (h1 : -2147483648 ≤ v) (h2 : v ≤ 2147483647) :
    stoi (to_string v) = .ok v := by
  unfold stoi
  rw [scanInteger_to_string]
  simp only [signedValue_natAbs]
  rw [if_pos ⟨h1, h2⟩]

/-- `std::stoll` reads back what `std::to_string` writes for a `long long`. -/
theorem stoll_to_string (v : Int) (h1 : -9223372036854775808 ≤ v)
    (h2 : v ≤ 9223372036854775807) : stoll (to_string v) = .ok v := by
  unfold stoll
  rw [scanInteger_to_string]
  simp only [signedValue_natAbs]
  rw [if_pos ⟨h1, h2⟩]

/-- A text `std::stoi` accepts is read as a value in the range of `int`. -/
theorem stoi_range (s : String) (v : Int) (h : stoi s = .ok v) :
    -2147483648 ≤ v ∧ v ≤ 2147483647 := by
  unfold stoi at h
  split at h
  · cases h
  · dsimp only at h
    split at h
    · cases h; assumption
    · cases h

theorem natDigits_all_digits (base : Nat) (hb : base ≤ 16) (hb2 : 2 ≤ base) (fuel : Nat) :
    ∀ n : Nat, ∀ c ∈ natDigits base fuel n, (digitVal base c).isSome = true := by
  induction fuel with
  | zero => intro n c hc; simp [natDigits] at hc
  | succ fuel ih =>
    intro n c hc
    unfold natDigits at hc
    by_cases hlt : n < base
    · rw [if_pos hlt] at hc
      simp only [List.mem_singleton] at hc
      subst hc
      rw [digitVal_digitChar base n hlt hb]; rfl
    · rw [if_neg hlt] at hc
      have hmod : n % base < base := Nat.mod_lt _ (by omega)
      rcases List.mem_append.mp hc with h | h
      · exact ih _ c h
      · simp only [List.mem_singleton] at h
        subst h
        rw [digitVal_digitChar base _ hmod hb]; rfl

theorem natDigits_length_le (base : Nat) (hb2 : 2 ≤ base) (fuel : Nat) :
    ∀ n k : Nat, 1 ≤ k → n < base ^ k → (natDigits base fuel n).length ≤ k := by
  induction fuel with
  | zero => intro n k _ _; simp [natDigits]
  | succ fuel ih =>
    intro n k hk hn
    unfold natDigits
    by_cases hlt : n < base
    · rw [if_pos hlt]; simpa using hk
    · rw [if_neg hlt]
      have hk2 : 2 ≤ k := by
        rcases Nat.lt_or_ge k 2 with h | h
        · have : k = 1 := by omega
          subst this
          simp at hn
          omega
        · exact h
      obtain ⟨j, rfl⟩ : ∃ j, k = j + 1 := ⟨k - 1, by omega⟩
      have hdiv : n / base < base ^ j := by
        rw [Nat.div_lt_iff_lt_mul (by omega)]
        rw [pow_succ] at hn
        exact hn
      have := ih (n / base) j (by omega) hdiv
      simp only [List.length_append, List.length_singleton]
      omega

theorem scanDigits_zeros (k : Nat) (l : List Char) :
    scanDigits 16 (List.replicate k '0' ++ l) 0 = scanDigits 16 l 0 := by
  induction k with
  | zero => simp
  | succ k ih =>
    rw [List.replicate_succ, List.cons_append]
    have h0 : digitVal 16 '0' = some 0 := by decide
    rw [scanDigits, h0]
    simpa using ih

/-- The characters `fmt::format("{:08x}", v)` writes for a non-negative `v`. -/
theorem format_08x_nonneg (v : Int) (hv : 0 ≤ v) :
    (format_08x v).toList =
      List.replicate (8 - (natDigits 16 (v.natAbs + 1) v.natAbs).length) '0' ++
        natDigits 16 (v.natAbs + 1) v.natAbs := by
  unfold format_08x
  dsimp only
  rw [if_neg (by omega)]
  rfl

theorem format_08x_all_digits (v : Int) (hv : 0 ≤ v) :
    ∀ c ∈ (format_08x v).toList, (digitVal 16 c).isSome = true := by
  intro c hc
  rw [format_08x_nonneg v hv] at hc
  rcases List.mem_append.mp hc with h | h
  · rw [List.mem_replicate] at h
    rw [h.2]; decide
  · exact natDigits_all_digits 16 (by omega) (by omega) _ _ c h

/-- `std::stoul(_, nullptr, 16)` reads back what `{:08x}` writes for a
non-negative `int`. -/
theorem stoul16_format_08x (v : Int) (hv : 0 ≤ v) (h2 : v ≤ 2147483647) :
    stoul16 (format_08x v) = .ok v.natAbs := by
  have hall := format_08x_all_digits v hv
  have hval : scanDigits 16 (format_08x v).toList 0 = v.natAbs := by
    rw [format_08x_nonneg v hv, scanDigits_zeros]
    have := scanDigits_natDigits 16 (by omega) (by omega) (v.natAbs + 1) v.natAbs 0 []
      (lt_pow_succ_self 16 _ (by omega))
    simpa [scanDigits] using this
  obtain ⟨c, cs, hcs, _⟩ := natDigits_head 16 (by omega) (by omega) v.natAbs v.natAbs
  have hne : ∃ d ds, (format_08x v).toList = d :: ds := by
    rw [format_08x_nonneg v hv, hcs]
    cases (List.replicate (8 - (c :: cs).length) '0') with
    | nil => exact ⟨c, cs, rfl⟩
    | cons d ds => exact ⟨d, ds ++ c :: cs, rfl⟩
  obtain ⟨d, ds, hds⟩ := hne
  have hd : (digitVal 16 d).isSome = true := hall d (by rw [hds]; simp)
  have hx : (16 : Nat) = 16 → ds.head? ≠ some 'x' ∧ ds.head? ≠ some 'X' := by
    intro _
    cases ds with
    | nil => simp
    | cons e es =>
      have he : (digitVal 16 e).isSome = true := hall e (by rw [hds]; simp)
      obtain ⟨_, _, _, h4, h5⟩ := hexValue_not_special e (digitVal_isSome_hex _ _ he)
      simp [h4, h5]
  unfold stoul16
  rw [hds, scanInteger_digit_head 16 d ds hd hx, ← hds, hval]
  dsimp only
  rw [if_neg (by omega)]
  simp

theorem format_08x_length (v : Int) (hv : 0 ≤ v) (h2 : v ≤ 2147483647) :
    (format_08x v).toList.length = 8 := by
  rw [format_08x_nonneg v hv]
  have := natDigits_length_le 16 (by omega) (v.natAbs + 1) v.natAbs 8 (by omega)
    (by norm_num; omega)
  simp only [List.length_append, List.length_replicate]
  omega

theorem qBound_mem (lo v hi : Int) (h1 : lo ≤ v) (h2 : v ≤ hi) : qBound lo v hi = v := by
  unfold qBound
  rw [min_eq_right h2, max_eq_right h1]

/-! ### Round trip of the integer adapters -/

theorem take_toList_of_length_le (s : String) (n : Nat) (h : s.toList.length ≤ n) :
    String.mk (s.toList.take n) = s := by
  rw [List.take_of_length_le h]
  rfl

theorem CreateLineEdit_setting (env : Env) (rf : RestoreFunc) (t : Touch) (m : Bool)
    (st : State) : (CreateLineEdit env rf t m st).st.setting = st.setting := by
  have k := CreateLineEdit_kept env rf t m st
  unfold State.setting
  rw [k.settings, k.setting]

theorem CreateLineEdit_unmanaged (env : Env) (rf : RestoreFunc) (t : Touch) (st : State) :
    (CreateLineEdit env rf t false st).st.self.line_edit =
      some { text := QLineEdit.new.truncated st.setting.ToString, maxLength := 32767,
             hexValidator := false, textChanged := none } := by
  unfold CreateLineEdit
  simp [QLineEdit.new]

/-- C5 (amended): For a setting whose current value is the decimal string of
`x`, the serializer of a freshly created adapter returns that string: for the
slider and the spin box when the bounds parse as `int` values around `x`, for
the hex edit when `x` is a non-negative `int`, and for the date/time edit when
it is not created disabled and `x` lies between the epoch and the end of the
year 9999. -/
theorem adapters_round_trip (env : Env) (st : State) (rf : RestoreFunc) (touch : Touch)
    (x : Int) (hval : st.setting.ToString = to_string x) :
    (∀ lo hi reversed, stoi st.setting.MinVal = .ok lo → stoi st.setting.MaxVal = .ok hi →
      lo ≤ x → x ≤ hi →
      ∃ r, CreateSlider env reversed rf touch st = .ok r ∧
        r.serializer.run r.st = .ok (to_string x)) ∧
    (∀ lo hi suffix, stoi st.setting.MinVal = .ok lo → stoi st.setting.MaxVal = .ok hi →
      lo ≤ x → x ≤ hi →
      ∃ r, CreateSpinBox env suffix rf touch st = .ok r ∧
        r.serializer.run r.st = .ok (to_string x)) ∧
    (0 ≤ x → x ≤ 2147483647 →
      ∃ r, CreateHexEdit env rf touch st = .ok r ∧
        r.serializer.run r.st = .ok (to_string x)) ∧
    (∀ restrict, 0 ≤ x → x ≤ 253402300799 →
      ∃ r, CreateDateTimeEdit env false restrict rf touch st = .ok r ∧
        r.serializer.run r.st = .ok (to_string x)) := by
  refine ⟨?_, ?_, ?_, ?_⟩
  · intro lo hi reversed hlo hhi h1 h2
    have rlo := stoi_range _ _ hlo
    have rhi := stoi_range _ _ hhi
    have hx : stoi st.setting.ToString = .ok x := by
      rw [hval]; exact stoi_to_string x (by omega) (by omega)
    refine ⟨_, by simp only [CreateSlider, hlo, hhi, hx, bind, Except.bind]; rfl, ?_⟩
    simp only [Serializer.run, deref, bind, Except.bind, pure, Except.pure, QSlider.setValue,
      QSlider.setMaximum, QSlider.setMinimum, QSlider.setRange, QSlider.new]
    congr 2
    simp only [qBound]
    omega
  · intro lo hi suffix hlo hhi h1 h2
    have rlo := stoi_range _ _ hlo
    have rhi := stoi_range _ _ hhi
    have hx : stoi st.setting.ToString = .ok x := by
      rw [hval]; exact stoi_to_string x (by omega) (by omega)
    refine ⟨_, by simp only [CreateSpinBox, hlo, hhi, hx, bind, Except.bind]; rfl, ?_⟩
    simp only [Serializer.run, deref, bind, Except.bind, pure, Except.pure, QSpinBox.bounded,
      QSpinBox.setRange, QSpinBox.new]
    congr 2
    simp only [qBound]
    split <;> omega
  · intro h1 h2
    have hx : stoi (CreateLineEdit env rf touch false st).st.setting.ToString = .ok x := by
      rw [CreateLineEdit_setting, hval]; exact stoi_to_string x (by omega) (by omega)
    have hlen := format_08x_length x h1 h2
    refine ⟨_, by
      simp only [CreateHexEdit, CreateLineEdit_unmanaged, deref, hx, bind, Except.bind]
      rfl, ?_⟩
    simp only [Serializer.run, deref, bind, Except.bind, pure, Except.pure,
      QLineEdit.setMaxLength, QLineEdit.truncated]
    rw [take_toList_of_length_le (format_08x x) 32767 (by omega)]
    rw [take_toList_of_length_le (format_08x x) 8 (by omega)]
    rw [stoul16_format_08x x h1 h2]
    simp only
    congr 2
    omega
  · intro restrict h1 h2
    have hx : stoll st.setting.ToString = .ok x := by
      rw [hval]; exact stoll_to_string x (by omega) (by omega)
    refine ⟨_, by
      simp only [CreateDateTimeEdit, Bool.false_eq_true, if_false, hx, bind, Except.bind]
      rfl, ?_⟩
    simp only [Serializer.run, deref, bind, Except.bind, pure, Except.pure,
      QDateTimeEdit.setMinimumDateTime, QDateTimeEdit.setDateTime, QDateTimeEdit.new]
    congr 2
    simp only [qBound]
    norm_num
    omega

/-! ### The drop-down -/

theorem foldl_addItem_items (l : ComboboxTranslations) (c : QComboBox) :
    (l.foldl (fun c e => c.addItem e.2) c).items = c.items ++ l.map Prod.snd := by
  induction l generalizing c with
  | nil => simp
  | cons e rest ih =>
    rw [List.foldl_cons, ih]
    simp [QComboBox.addItem]

/-- The `touch` closure keeps every control but the restore button. -/
theorem Touch.run_combobox (t : Touch) (st st1 : State) (h : t.run st = .ok st1) :
    st1.self.combobox = st.self.combobox := by
  cases t with
  | noop => cases h; rfl
  | reveal =>
    unfold Touch.run at h
    simp only [bind_ok, deref_ok] at h
    obtain ⟨b, _, h⟩ := h
    cases h
    rfl

theorem Touch.run_total (t : Touch) (st : State)
    (h : t = .reveal → st.self.restore_button ≠ none) : ∃ st1, t.run st = .ok st1 := by
  cases t with
  | noop => exact ⟨st, rfl⟩
  | reveal =>
    cases hb : st.self.restore_button with
    | none => exact absurd hb (h rfl)
    | some b =>
      simp only [Touch.run, hb, deref, bind, Except.bind]
      exact ⟨_, rfl⟩

/-- C7: For a setting whose type has a registered enumeration table and whose
current value parses, the combobox is created, lists the display names in
table order, and after the user selects item `i` the serializer returns the
decimal string of the raw value of the `i`-th entry of the table. -/
theorem combobox_selection (env : Env) (st : State) (ser : Serializer) (rf : RestoreFunc)
    (touch : Touch) (enumeration : ComboboxTranslations) (v : Int)
    (htable : st.self.combobox_enumerations.lookup st.setting.TypeId = some enumeration)
    (hparse : stoi st.setting.ToString = .ok v)
    (htouch : touch = .reveal → st.self.restore_button ≠ none) :
    ∃ r box, CreateCombobox env ser rf touch st = .ok r ∧
      r.st.self.combobox = some box ∧
      box.items = enumeration.map Prod.snd ∧
      ∀ i (hi : i < enumeration.length), ∃ st1,
        (UserEvent.activateItem i).deliver r.st = .ok st1 ∧
        r.serializer.run st1 = .ok (to_string (enumeration[i].1 : Int)) := by
  have hitems := foldl_addItem_items enumeration QComboBox.new
  refine ⟨_, _, by simp only [CreateCombobox, htable, hparse, bind, Except.bind]; rfl, rfl,
    by simp only [QComboBox.setCurrentIndex]; rw [hitems]; simp [QComboBox.new], ?_⟩
  intro i hi
  have hneg : ¬ ((i : Int) < 0) := by omega
  have hlen : i < ((enumeration.foldl (fun c e => c.addItem e.2) QComboBox.new).items).length := by
    rw [hitems]; simpa [QComboBox.new] using hi
  simp only [UserEvent.deliver, QComboBox.setCurrentIndex, hlen, if_true]
  by_cases hg : (!env.IsConfiguringGlobal) = true
  · simp only [hg, if_true, emit]
    obtain ⟨st1, h1⟩ := Touch.run_total touch
      { st with self := { st.self with
          combobox := some
            { items := (enumeration.foldl (fun c e => c.addItem e.2) QComboBox.new).items,
              currentIndex := (i : Int), activated := some touch } } } htouch
    refine ⟨st1, h1, ?_⟩
    have hc := Touch.run_combobox _ _ _ h1
    simp only [Serializer.run, hc, deref, bind, Except.bind, enumeration_at, pure, Except.pure]
    simp [hi, hneg]
  · simp only [hg, if_false, emit]
    refine ⟨_, rfl, ?_⟩
    simp only [Serializer.run, deref, bind, Except.bind, enumeration_at, pure, Except.pure]
    simp [hi, hneg]

/-! ### Evaluations at concrete inputs -/

/-- C6 (evaluation): The hex edit of a setting with current value 255 shows
`000000ff`; after the user enters `1a` the commit writes `26`; the input filter
admits the empty text, and with the field emptied the commit fails with
`std::invalid_argument` instead of writing a value. -/
theorem hex_edit_empty_text_fails :
    hexBinding.self.line_edit.map QLineEdit.text = some "000000ff" ∧
    ((do
        let st ← (UserEvent.editText "1a").deliver hexBinding
        let st1 ← hexCallback.call false st
        pure (st1.settings 0).ToString) = .ok "26") ∧
    hexBinding.self.line_edit.map (fun l => l.admits "") = some true ∧
    ((do
        let st ← (UserEvent.editText "").deliver hexBinding
        Serializer.hexEdit.run st) = .error .invalid_argument) ∧
    faultOf (do
        let st ← (UserEvent.editText "").deliver hexBinding
        hexCallback.call false st) = some .invalid_argument := by
  decide

/-- C10 (evaluation): A date/time edit requested with a companion of type
`u32` is constructed valid, with one commit callback and no check box, and its
commit completes; but a click on the restore button, and the end of an edit of
the date/time field, dereference the null `checkbox` member. -/
theorem date_time_without_checkbox_faults :
    ((do
        let st ← Widget.construct overrideEnv 0 (sampleArgs .DateTimeEdit (some 1))
          (clockStore .u32 "1") 0 []
        pure (st.self.Valid, st.apply_funcs.length, st.self.checkboxes.length,
          st.self.checkbox)) = .ok (true, 1, 0, none)) ∧
    faultOf (do
        let st ← Widget.construct overrideEnv 0 (sampleArgs .DateTimeEdit (some 1))
          (clockStore .u32 "1") 0 []
        UserEvent.clickRestore.deliver st) = some .null_dereference ∧
    faultOf (do
        let st ← Widget.construct overrideEnv 0 (sampleArgs .DateTimeEdit (some 1))
          (clockStore .u32 "1") 0 []
        (UserEvent.editDateTime 5).deliver st) = some .null_dereference := by
  decide

/-- A line edit after a click on the restore button: setting the text emits
`textChanged`, the `touch` closure runs, and the restore button is enabled and
visible again. -/
theorem restore_line_edit_touches_again :
    ((do
        let st ← UserEvent.clickRestore.deliver textBinding
        pure (st.self.restore_button.map (fun (b : QPushButton) => (b.enabled, b.visible)),
          st.self.line_edit.map QLineEdit.text)) = .ok (some (true, true), some "b")) := by
  decide

/-- C5 (counterexample): A date/time edit created disabled (its companion is
not `true`) for a setting whose current value is 100: the serializer returns
the wall-clock time 1000. -/
theorem disabled_date_time_serializes_clock :
    Serializer.dateTimeEdit.run clockBinding = .ok "1000" ∧
    (clockBinding.settings 0).ToString = to_string 100 ∧
    (clockBinding.settings 0).MinVal = to_string 0 ∧
    (clockBinding.settings 0).MaxVal = to_string 100 := by
  decide


/-- A boolean setting with a boolean companion: both calls of `CreateCheckBox`
assign the member `checkbox`, so after construction it points at the second
check box; when the user ticks the first one (the companion's), the serializer
of the companion still returns the state of the second. -/
theorem companion_serializer_reads_member :
    (do
      let st ← Widget.construct globalEnv 0 (sampleArgs .Default (some 1)) twoFlagsStore 0 []
      let st1 ← (UserEvent.clickCheckBox 0).deliver st
      let v ← Serializer.checkBox.run st1
      pure (st1.self.checkboxes.map QCheckBox.checked, st1.self.checkbox,
        st1.apply_funcs.map ApplyFunc.load_func, v)) =
      .ok ([true, false], some 1,
        [.configuringGlobal .checkBox .checkBox true (some 1)], "false") := by
  decide

/-! ### Witnesses -/

/-- C1 at a sample: the text binding of `textStore`, whose setting is not
runtime-modifiable, with the system powered on. -/
theorem commit_callback_gate_witness :
    Widget.construct overrideEnv 0 (sampleArgs .LineEdit none) textStore 0 [] = .ok textBinding ∧
    textCallback ∈ textBinding.apply_funcs ∧ textCallback ∉ ([] : List ApplyFunc) ∧
    (textCallback.setting_ = (sampleArgs .LineEdit none).setting_ ∧
      ((textBinding.settings (sampleArgs .LineEdit none).setting_).RuntimeModfiable = true ∨
          true = false →
        textCallback.call true textBinding = textCallback.load_func.run textBinding) ∧
      ((textBinding.settings (sampleArgs .LineEdit none).setting_).RuntimeModfiable = false ∧
          true = true →
        textCallback.call true textBinding = .ok textBinding)) :=
  ⟨rfl, by decide, by decide,
    commit_callback_gate overrideEnv 0 (sampleArgs .LineEdit none) textStore 0 [] textBinding
      textCallback true textBinding rfl (by decide) (by decide)⟩

/-- C4 at a sample: the text binding after an edit and a click on the restore
button. -/
theorem settings_untouched_without_commit_witness :
    Widget.construct overrideEnv 0 (sampleArgs .LineEdit none) textStore 0 [] = .ok textBinding ∧
    deliverAll textEvents textBinding = .ok (stateOf (deliverAll textEvents textBinding) textBinding) ∧
    (stateOf (deliverAll textEvents textBinding) textBinding).settings = textStore :=
  ⟨rfl, rfl,
    settings_untouched_without_commit overrideEnv 0 (sampleArgs .LineEdit none) textStore 0 []
      textBinding (stateOf (deliverAll textEvents textBinding) textBinding) textEvents rfl rfl⟩

/-- C8 at a sample: three constructions of which the second has an empty label. -/
theorem registry_after_constructions_witness :
    Dialog.constructAll overrideEnv threeArgs emptyDialog =
      .ok (dialogOf (Dialog.constructAll overrideEnv threeArgs emptyDialog) emptyDialog) ∧
    ((dialogOf (Dialog.constructAll overrideEnv threeArgs emptyDialog) emptyDialog).settings =
        emptyDialog.settings ∧
      ∃ ws news,
        (dialogOf (Dialog.constructAll overrideEnv threeArgs emptyDialog) emptyDialog).widgets =
          emptyDialog.widgets ++ ws ∧
        ws.map Widget.Valid =
          threeArgs.map (fun a => !constructionSkipped overrideEnv a emptyDialog.settings) ∧
        (dialogOf (Dialog.constructAll overrideEnv threeArgs emptyDialog) emptyDialog).apply_funcs =
          news ++ emptyDialog.apply_funcs ∧
        news.map ApplyFunc.key =
          (registered overrideEnv emptyDialog.settings emptyDialog.widgets.length
            threeArgs).reverse) :=
  ⟨rfl, registry_after_constructions overrideEnv threeArgs emptyDialog
    (dialogOf (Dialog.constructAll overrideEnv threeArgs emptyDialog) emptyDialog) rfl⟩


/-- C9 at a sample: the text binding, whose setting does not use the global
value and whose `Widget` is enabled. -/
theorem fresh_binding_button_state_witness :
    Widget.construct overrideEnv 0 (sampleArgs .LineEdit none) textStore 0 [] = .ok textBinding ∧
    textBinding.self.Valid = true ∧
    textBinding.self.enabled = true ∧
    textBinding.self.restore_button = some textButton ∧
    textButton.enabled = true ∧ textButton.visible = true ∧
    (textStore (sampleArgs .LineEdit none).setting_).UsingGlobal = false ∧
    (textStore (sampleArgs .LineEdit none).setting_).Switchable = true :=
  ⟨rfl, by decide,
    (fresh_binding_button_state overrideEnv 0 (sampleArgs .LineEdit none) textStore 0 []
      textBinding rfl rfl rfl (by decide)).2.1,
    by decide, rfl, rfl, rfl,
    (fresh_binding_button_state overrideEnv 0 (sampleArgs .LineEdit none) textStore 0 []
      textBinding rfl rfl rfl (by decide)).1⟩

/-- C7 at a sample: an enumerated setting with a table of two entries. -/
theorem combobox_selection_witness :
    comboState.self.combobox_enumerations.lookup comboState.setting.TypeId = some sampleTable ∧
    stoi comboState.setting.ToString = .ok 20 ∧
    ∃ r box, CreateCombobox overrideEnv .empty .noop .noop comboState = .ok r ∧
      r.st.self.combobox = some box ∧
      box.items = sampleTable.map Prod.snd ∧
      ∀ i (hi : i < sampleTable.length), ∃ st1,
        (UserEvent.activateItem i).deliver r.st = .ok st1 ∧
        r.serializer.run st1 = .ok (to_string (sampleTable[i].1 : Int)) :=
  ⟨by decide, by decide,
    combobox_selection overrideEnv comboState .empty .noop .noop sampleTable 20 (by decide)
      (by decide) (by decide)⟩

/-- C5 at a sample: a setting with current value 50 and bounds 0 and 100, under each of the
four adapters. -/
theorem adapters_round_trip_witness :
    integerState.setting.ToString = to_string 50 ∧
    (∃ r, CreateSlider overrideEnv false .noop .noop integerState = .ok r ∧
      r.serializer.run r.st = .ok (to_string 50)) ∧
    (∃ r, CreateSpinBox overrideEnv "" .noop .noop integerState = .ok r ∧
      r.serializer.run r.st = .ok (to_string 50)) ∧
    (∃ r, CreateHexEdit overrideEnv .noop .noop integerState = .ok r ∧
      r.serializer.run r.st = .ok (to_string 50)) ∧
    (∃ r, CreateDateTimeEdit overrideEnv false true .noop .noop integerState = .ok r ∧
      r.serializer.run r.st = .ok (to_string 50)) :=
  ⟨by decide,
    (adapters_round_trip overrideEnv integerState .noop .noop 50 (by decide)).1 0 100 false
      (by decide) (by decide) (by decide) (by decide),
    (adapters_round_trip overrideEnv integerState .noop .noop 50 (by decide)).2.1 0 100 ""
      (by decide) (by decide) (by decide) (by decide),
    (adapters_round_trip overrideEnv integerState .noop .noop 50 (by decide)).2.2.1
      (by decide) (by decide),
    (adapters_round_trip overrideEnv integerState .noop .noop 50 (by decide)).2.2.2 true
      (by decide) (by decide)⟩

/-- The commit at a sample: the text binding with its restore button enabled and
the text "a" in the line edit; the commit stores "a" as the override and clears
the using-global flag. -/
theorem override_commit_witness :
    Widget.construct overrideEnv 0 (sampleArgs .LineEdit none) textStore 0 [] = .ok textBinding ∧
    textCallback ∈ textBinding.apply_funcs ∧ textCallback ∉ ([] : List ApplyFunc) ∧
    textBinding.self.restore_button = some textButton ∧
    textCallback.load_func.run textBinding =
      .ok { textBinding with
            settings := commitStore textBinding.settings 0 none true "a" "" } ∧
    (commitStore textBinding.settings 0 none true "a" "" 0).UsingGlobal = false ∧
    (commitStore textBinding.settings 0 none true "a" "" 0).ToString = "a" := by
  refine ⟨rfl, by decide, by decide, by decide, ?_, by decide, by decide⟩
  obtain ⟨ser, cser, h1, _, _, h4, _⟩ :=
    override_commit overrideEnv 0 (sampleArgs .LineEdit none) textStore 0 [] textBinding
      textCallback textBinding textButton rfl rfl rfl (by decide) (by decide) rfl (by decide)
  cases h1
  exact h4 rfl "a" "" (by decide) (fun h => absurd h (by decide))

/-! ### The restore button -/

/-- What the frame tells about the restore button of a later state. -/
theorem Frame.button (st0 st : State) (h : Frame st0 st) (b0 : QPushButton)
    (hb : st0.self.restore_button = some b0) :
    ∃ b, st.self.restore_button = some b ∧ b.clicked = b0.clicked := by
  have := congrArg Widget.restore_button h.shape
  simp only [Widget.erase, hb, Option.map_some'] at this
  cases hs : st.self.restore_button with
  | none => rw [hs] at this; cases this
  | some b =>
    rw [hs] at this
    simp only [Option.map_some', Option.some.injEq, QPushButton.mk.injEq] at this
    exact ⟨b, rfl, this.2.2.2⟩

theorem Frame.setting (st0 st : State) (h : Frame st0 st) :
    st.self.setting = st0.self.setting ∧ st.setting = st0.setting := by
  have := congrArg Widget.setting h.shape
  simp only [Widget.erase] at this
  exact ⟨this, by unfold State.setting; rw [h.settings, this]⟩

theorem Frame.checkbox (st0 st : State) (h : Frame st0 st) :
    st.self.checkbox = st0.self.checkbox ∧
    st.self.checkboxes.length = st0.self.checkboxes.length := by
  have h1 := congrArg Widget.checkbox h.shape
  have h2 := congrArg (fun w => w.checkboxes.length) h.shape
  simp only [Widget.erase, List.length_map] at h1 h2
  exact ⟨h1, h2⟩

theorem Frame.slider (st0 st : State) (h : Frame st0 st) (s0 : QSlider)
    (hs : st0.self.slider = some s0) :
    ∃ s, st.self.slider = some s ∧ s.minimum = s0.minimum ∧ s.maximum = s0.maximum := by
  have := congrArg Widget.slider h.shape
  simp only [Widget.erase, hs, Option.map_some'] at this
  cases hq : st.self.slider with
  | none => rw [hq] at this; cases this
  | some s =>
    rw [hq] at this
    simp only [Option.map_some', Option.some.injEq, QSlider.mk.injEq] at this
    exact ⟨s, rfl, this.1, this.2.1⟩

theorem Frame.spinbox (st0 st : State) (h : Frame st0 st) (s0 : QSpinBox)
    (hs : st0.self.spinbox = some s0) :
    ∃ s, st.self.spinbox = some s ∧ s.minimum = s0.minimum ∧ s.maximum = s0.maximum ∧
      s.valueChanged = s0.valueChanged := by
  have := congrArg Widget.spinbox h.shape
  simp only [Widget.erase, hs, Option.map_some'] at this
  cases hq : st.self.spinbox with
  | none => rw [hq] at this; cases this
  | some s =>
    rw [hq] at this
    simp only [Option.map_some', Option.some.injEq, QSpinBox.mk.injEq] at this
    exact ⟨s, rfl, this.1, this.2.1, this.2.2.2.2⟩

theorem Frame.combobox (st0 st : State) (h : Frame st0 st) (c0 : QComboBox)
    (hs : st0.self.combobox = some c0) :
    ∃ c, st.self.combobox = some c ∧ c.items = c0.items := by
  have := congrArg Widget.combobox h.shape
  simp only [Widget.erase, hs, Option.map_some'] at this
  cases hq : st.self.combobox with
  | none => rw [hq] at this; cases this
  | some c =>
    rw [hq] at this
    simp only [Option.map_some', Option.some.injEq, QComboBox.mk.injEq] at this
    exact ⟨c, rfl, this.1⟩

theorem Frame.date_time_edit (st0 st : State) (h : Frame st0 st) (d0 : QDateTimeEdit)
    (hs : st0.self.date_time_edit = some d0) :
    ∃ d, st.self.date_time_edit = some d ∧ d.minimum = d0.minimum ∧ d.maximum = d0.maximum := by
  have := congrArg Widget.date_time_edit h.shape
  simp only [Widget.erase, hs, Option.map_some'] at this
  cases hq : st.self.date_time_edit with
  | none => rw [hq] at this; cases this
  | some d =>
    rw [hq] at this
    simp only [Option.map_some', Option.some.injEq, QDateTimeEdit.mk.injEq] at this
    exact ⟨d, rfl, this.1, this.2.1⟩

theorem createLhs_shape (env : Env) (label : String) (req : Bool) (other : Option Nat)
    (t : Touch) (st : State) (r : Created) (hg : env.IsConfiguringGlobal = false)
    (hempty : st.self.checkboxes = [] ∧ st.self.checkbox = none)
    (h : createLhs env label req other t st = .ok r) :
    (req = false → r.restore_func = .noop ∧ r.st.self.checkboxes = [] ∧
      r.st.self.checkbox = none) ∧
    (req = true → ∃ o, other = some o ∧ r.restore_func = .checkBox o ∧
      r.st.self.checkboxes.length = 1 ∧ r.st.self.checkbox = some 0) := by
  unfold createLhs at h
  by_cases hr : req = true
  · rw [if_pos hr] at h
    simp only [bind_ok, deref_ok] at h
    obtain ⟨o, ho, c, _, h⟩ := h
    cases h
    refine ⟨fun hf => (by rw [hr] at hf; cases hf), fun _ => ⟨o, ho, ?_, ?_, ?_⟩⟩
    · simp [CreateCheckBox, hg]
    · simp [CreateCheckBox, addWidget, hempty.1]
    · simp [CreateCheckBox, addWidget, hempty.1]
  · rw [if_neg hr] at h
    refine ⟨fun _ => ?_, fun ht => absurd ht hr⟩
    by_cases hb : st.setting.TypeId ≠ .bool
    · rw [if_pos hb] at h
      cases h
      exact ⟨rfl, hempty.1, hempty.2⟩
    · rw [if_neg hb] at h
      cases h
      exact ⟨rfl, hempty.1, hempty.2⟩

/-! ### A click on the restore button, by category -/

theorem beginSetup_empty (env : Env) (a : Args) (settings : Store) (n : Nat)
    (reg : List ApplyFunc) :
    (beginSetup env true (State.initial a settings n reg)).1.self.checkboxes = [] ∧
    (beginSetup env true (State.initial a settings n reg)).1.self.checkbox = none ∧
    (beginSetup env true (State.initial a settings n reg)).1.self.combobox_enumerations =
      a.combobox_translations_ := by
  unfold beginSetup
  dsimp only
  split <;> exact ⟨rfl, rfl, rfl⟩

/-- What holds when the restore button of a managed binding built in override
mode is clicked after any sequence of events. -/
theorem restore_prelude (env : Env) (this_ : Nat) (a : Args) (settings : Store) (n : Nat)
    (reg : List ApplyFunc) (st0 st : State) (events : List UserEvent)
    (hmode : env.IsConfiguringGlobal = false) (hmanaged : a.managed = true)
    (hbuilt : Widget.construct env this_ a settings n reg = .ok st0)
    (hvalid : st0.self.Valid = true)
    (hrun : deliverAll events st0 = .ok st) :
    ∃ (lhs made : Created) (b : QPushButton),
      createDataComponent env (resolveLabel a.translations_ (settings a.setting_)).1
        a.request a.other_setting a.string .reveal lhs.st = .ok made ∧
      lhs.st.setting = settings a.setting_ ∧ lhs.st.settings = settings ∧
      lhs.st.self.setting = a.setting_ ∧
      lhs.st.self.combobox_enumerations = a.combobox_translations_ ∧
      (requireCheckbox settings a.other_setting = false → lhs.restore_func = .noop ∧
        lhs.st.self.checkboxes = [] ∧ lhs.st.self.checkbox = none) ∧
      (requireCheckbox settings a.other_setting = true → ∃ o, a.other_setting = some o ∧
        lhs.restore_func = .checkBox o ∧ lhs.st.self.checkboxes.length = 1 ∧
        lhs.st.self.checkbox = some 0) ∧
      st.settings = settings ∧ st.self.setting = a.setting_ ∧
      st.self.restore_button = some b ∧
      b.clicked = some (made.restore_func, lhs.restore_func) ∧
      Frame st0 st ∧ SameControls made.st.self st0.self ∧
      st0.apply_funcs.head? = some (ApplyFunc.mk this_ (.configuringCustom made.serializer
        (requireCheckbox settings a.other_setting) lhs.serializer a.other_setting)
        a.setting_) ∧
      noAdapter (settings a.setting_) = false := by
  obtain ⟨lhs, made, hl, hmade, hbtn, hreg, hsc, hset, hsg, _⟩ :=
    construct_custom _ _ _ _ _ _ _ hmode hmanaged hbuilt hvalid
  have hna : noAdapter (settings a.setting_) = false := by
    obtain ⟨_, _, hskip, _⟩ := construct_spec _ _ _ _ _ _ _ hbuilt
    cases hq : noAdapter (settings a.setting_) with
    | false => rfl
    | true =>
      have : constructionSkipped env a settings = true := by
        simp [constructionSkipped, hq]
      have hc := (hskip this).1
      rw [Widget.Valid] at hvalid
      rw [hvalid] at hc
      cases hc
  have hf := deliverAll_frame _ _ _ hrun
  obtain ⟨b, hb, hbc⟩ := Frame.button _ _ hf _ hbtn
  obtain ⟨e1, e2, e3⟩ := beginSetup_empty env a settings n reg
  obtain ⟨_, _, _, t4, t5⟩ := beginSetup_custom env (State.initial a settings n reg) hmode
  have k1 := createLhs_kept _ _ _ _ _ _ _ hl
  obtain ⟨s1, s2⟩ := createLhs_shape _ _ _ _ _ _ _ hmode ⟨e1, e2⟩ hl
  have hls : lhs.st.settings = settings := by rw [k1.settings, t4]; rfl
  have hlg : lhs.st.self.setting = a.setting_ := by rw [k1.setting, t5]; rfl
  refine ⟨lhs, made, b, hmade, ?_, hls, hlg, ?_, s1, s2, ?_, ?_, hb, hbc, hf, hsc, ?_, hna⟩
  · unfold State.setting
    rw [hls, hlg]
  · rw [k1.enumerations, e3]
  · rw [hf.settings, hset]
  · rw [(Frame.setting _ _ hf).1, hsg]
  · rw [hreg]; rfl

/-- C11 (counterexample): A boolean setting that is neither saved nor
runtime-modifiable, with the runtime lock set. While the global values are
configured (`IsConfiguringGlobal` true) `CreateCheckBox` leaves the check box
enabled, and while overrides are configured (`IsConfiguringGlobal` false) it
disables it: the opposite of the stated combination. -/
theorem locked_global_checkbox_stays_enabled :
    (unsavedFlagStore 0).Save = false ∧
    (unsavedFlagStore 0).RuntimeModfiable = false ∧
    (lockedState unsavedFlagStore).self.runtime_lock = true ∧
    globalEnv.IsConfiguringGlobal = true ∧
    checkboxEnabled
      (CreateCheckBox globalEnv 0 "Flag" .noop .noop (lockedState unsavedFlagStore)) =
      .ok true ∧
    overrideEnv.IsConfiguringGlobal = false ∧
    checkboxEnabled
      (CreateCheckBox overrideEnv 0 "Flag" .noop .noop (lockedState unsavedFlagStore)) =
      .ok false := by
  decide

/-- The flag `CreateCheckBox` reads is `Save()`: with the runtime lock set and
overrides being configured, a saved setting that is not runtime-modifiable gets
an enabled check box. -/
theorem checkbox_ignores_runtime_modifiable :
    (savedFlagStore 0).Save = true ∧ (savedFlagStore 0).RuntimeModfiable = false ∧
    (lockedState savedFlagStore).self.runtime_lock = true ∧
    overrideEnv.IsConfiguringGlobal = false ∧
    checkboxEnabled
      (CreateCheckBox overrideEnv 0 "Flag" .noop .noop (lockedState savedFlagStore)) =
      .ok true := by
  decide

/-- C11 (amended): For every setting, runtime-lock flag and configuration mode,
`CreateCheckBox` returns a new check box, which the member `checkbox` points at;
it is disabled exactly when the setting's `Save()` is false, `runtime_lock` is
true and overrides are being configured (`IsConfiguringGlobal` false), and it is
enabled in every other combination. -/
theorem checkbox_enabled_condition (env : Env) (bool_setting : Nat) (label : String)
    (restore_func : RestoreFunc) (touch : Touch) (st : State) :
    ∃ (k : Nat) (box : QCheckBox),
      (CreateCheckBox env bool_setting label restore_func touch st).component =
        some (.checkbox k) ∧
      (CreateCheckBox env bool_setting label restore_func touch st).st.self.checkbox = some k ∧
      (CreateCheckBox env bool_setting label restore_func touch st).st.self.checkboxes[k]? =
        some box ∧
      (CreateCheckBox env bool_setting label restore_func touch st).st.self.checkboxObj =
        .ok box ∧
      (box.enabled = false ↔
        ((st.settings bool_setting).Save = false ∧ env.IsConfiguringGlobal = false ∧
          st.self.runtime_lock = true)) ∧
      (box.enabled = true ↔
        ((st.settings bool_setting).Save = true ∨ env.IsConfiguringGlobal = true ∨
          st.self.runtime_lock = false)) := by
  refine ⟨st.self.checkboxes.length,
    { text := label, checked := decide ((st.settings bool_setting).ToString = "true"),
      enabled := !(!(st.settings bool_setting).Save && !env.IsConfiguringGlobal &&
        st.self.runtime_lock),
      clicked := if !env.IsConfiguringGlobal then some touch else none },
    rfl, rfl, ?_, ?_, ?_, ?_⟩
  · simp [CreateCheckBox]
  · simp [CreateCheckBox, Widget.checkboxObj, deref]
  · cases (st.settings bool_setting).Save <;> cases env.IsConfiguringGlobal <;>
      cases st.self.runtime_lock <;> simp
  · cases (st.settings bool_setting).Save <;> cases env.IsConfiguringGlobal <;>
      cases st.self.runtime_lock <;> simp

/-! ### The check box read by the companion's serializer -/

theorem CreateLineEdit_boxes (env : Env) (rf : RestoreFunc) (t : Touch) (m : Bool) (st : State) :
    KeptBoxes st (CreateLineEdit env rf t m st).st := by
  unfold CreateLineEdit
  split
  · constructor <;> rfl
  · split <;> constructor <;> rfl

theorem CreateCombobox_boxes (env : Env) (s : Serializer) (rf : RestoreFunc) (t : Touch)
    (st : State) (r : Created) (h : CreateCombobox env s rf t st = .ok r) :
    KeptBoxes st r.st := by
  unfold CreateCombobox at h
  cases hl : List.lookup st.setting.TypeId st.self.combobox_enumerations with
  | none =>
    simp only [hl] at h
    cases h; constructor <;> rfl
  | some en =>
    simp only [hl, bind_ok] at h
    obtain ⟨v, _, h⟩ := h
    cases h; constructor <;> rfl

theorem CreateHexEdit_boxes (env : Env) (rf : RestoreFunc) (t : Touch)
    (st : State) (r : Created) (h : CreateHexEdit env rf t st = .ok r) : KeptBoxes st r.st := by
  unfold CreateHexEdit at h
  simp only [bind_ok] at h
  obtain ⟨a, _, b, _, h⟩ := h
  cases h
  have := CreateLineEdit_boxes env rf t false st
  exact ⟨this.checkboxes, this.checkbox⟩

/-- For a setting that is not boolean the dispatch creates no check box and
leaves the member `checkbox` alone. -/
theorem createDataComponent_boxes (env : Env) (label : String) (request : RequestType)
    (other : Option Nat) (str : String) (t : Touch) (st : State) (r : Created)
    (hb : st.setting.TypeId ≠ .bool)
    (h : createDataComponent env label request other str t st = .ok r) :
    KeptBoxes st r.st := by
  unfold createDataComponent at h
  dsimp only at h
  rw [if_neg hb] at h
  by_cases he : st.setting.IsEnum = true
  · rw [if_pos he] at h
    exact CreateCombobox_boxes _ _ _ _ _ _ h
  rw [if_neg he] at h
  by_cases hi : isIntegerType st.setting.TypeId = true
  · rw [if_pos hi] at h
    cases request <;> dsimp only at h
    · cases h; exact CreateLineEdit_boxes ..
    · exact CreateCombobox_boxes _ _ _ _ _ _ h
    · unfold CreateSpinBox at h
      simp only [bind_ok] at h
      obtain ⟨a, _, b, _, c, _, h⟩ := h
      cases h; constructor <;> rfl
    · unfold CreateSlider at h
      simp only [bind_ok] at h
      obtain ⟨a, _, b, _, c, _, h⟩ := h
      cases h; constructor <;> rfl
    · unfold CreateSlider at h
      simp only [bind_ok] at h
      obtain ⟨a, _, b, _, c, _, h⟩ := h
      cases h; constructor <;> rfl
    · cases h; exact CreateLineEdit_boxes ..
    · exact CreateHexEdit_boxes _ _ _ _ _ h
    · rw [bind_ok] at h
      obtain ⟨o, _, h⟩ := h
      unfold CreateDateTimeEdit at h
      simp only [bind_ok] at h
      obtain ⟨a, _, h⟩ := h
      cases h; constructor <;> rfl
    · simp [UNIMPLEMENTED] at h
  rw [if_neg hi] at h
  by_cases hs : st.setting.TypeId = .string
  · rw [if_pos hs] at h
    cases request <;> dsimp only at h <;>
      first
        | (cases h; exact CreateLineEdit_boxes ..)
        | exact CreateCombobox_boxes _ _ _ _ _ _ h
        | simp [UNIMPLEMENTED] at h
  rw [if_neg hs] at h
  cases h; exact ⟨rfl, rfl⟩

/-- The sibling path: for a setting that is not boolean with a boolean
companion, in any state reached by user events the binding holds exactly one
check box, the companion's, and the check box serializer returns its state. -/
theorem companion_serializer_reads_own_box (env : Env) (this_ : Nat) (a : Args)
    (settings : Store) (n : Nat) (reg : List ApplyFunc) (st0 st : State)
    (events : List UserEvent)
    (hmode : env.IsConfiguringGlobal = false) (hmanaged : a.managed = true)
    (hbuilt : Widget.construct env this_ a settings n reg = .ok st0)
    (hvalid : st0.self.Valid = true)
    (hrun : deliverAll events st0 = .ok st)
    (hreq : requireCheckbox settings a.other_setting = true)
    (hb : (settings a.setting_).TypeId ≠ .bool) :
    ∃ c, st.self.checkboxes = [c] ∧ st.self.checkbox = some 0 ∧
      Serializer.checkBox.run st = .ok (if c.checked then "true" else "false") := by
  obtain ⟨lhs, made, b, hmade, q1, _, _, _, _, s2, _, _, _, _, hf, hsc, _, _⟩ :=
    restore_prelude _ _ _ _ _ _ _ _ _ hmode hmanaged hbuilt hvalid hrun
  obtain ⟨o, _, _, h2, h3⟩ := s2 hreq
  have hk := createDataComponent_boxes _ _ _ _ _ _ _ _ (by rw [q1]; exact hb) hmade
  obtain ⟨f1, f2⟩ := Frame.checkbox _ _ hf
  have hptr : st.self.checkbox = some 0 := by rw [f1, hsc.checkbox, hk.checkbox, h3]
  have hlen : st.self.checkboxes.length = 1 := by
    rw [f2, hsc.checkboxes, hk.checkboxes, h2]
  cases hl : st.self.checkboxes with
  | nil => rw [hl] at hlen; cases hlen
  | cons c rest =>
    cases rest with
    | nil =>
      refine ⟨c, rfl, hptr, ?_⟩
      simp [Serializer.run, Widget.checkboxObj, hptr, hl, deref, bind, Except.bind, pure,
        Except.pure]
    | cons d rest => rw [hl] at hlen; simp at hlen

/-- C2 (failing input): A boolean setting that is off with a boolean companion
that is on, both overridden, built in override mode. The binding holds two check
boxes, the companion's (checked) and the setting's (unchecked), and the member
`checkbox` points at the second. The commit, run right after construction with
the restore button enabled, writes `false` to the companion, whose own check
box serializes to `true`. -/
theorem bool_companion_commit_writes_primary_box :
    (flagPairStore 1).ToString = "true" ∧
    (do
      let st ← Widget.construct overrideEnv 0 (sampleArgs .Default (some 1)) flagPairStore 0 []
      let f ← deref st.apply_funcs.head?
      let st1 ← f.call false st
      pure (st.self.checkboxes.map QCheckBox.checked, st.self.checkbox,
        st.self.restore_button.map (fun (b : QPushButton) => b.enabled), f.load_func,
        (st1.settings 1).ToString)) =
      .ok ([true, false], some 1, some true,
        .configuringCustom .checkBox true .checkBox (some 1), "false") := by
  decide

/-! ### The restore button of a disabled `Widget` -/

/-- C9 (counterexample): A switchable, overridden text setting that is not
runtime-modifiable, built in override mode with the runtime lock cleared. The
constructor disables the `Widget` and with it the restore button, which stays
visible: the button is neither disabled and hidden nor enabled and visible. -/
theorem disabled_widget_button_in_neither_state :
    overrideEnv.IsConfiguringGlobal = false ∧ (unlockedArgs .LineEdit none).managed = true ∧
    (textStore 0).Switchable = true ∧ (textStore 0).UsingGlobal = false ∧
    (do
      let st ← Widget.construct overrideEnv 0 (unlockedArgs .LineEdit none) textStore 0 []
      pure (st.self.Valid, st.self.enabled,
        st.self.restore_button.map (fun (b : QPushButton) => (b.enabled, b.visible)))) =
      .ok (true, false, some (false, true)) := by
  decide

/-! ### Global values outside the range of the control -/

/-- A date/time edit whose companion is on and whose global value is -5: the
click on the restore button leaves the control at its minimum, 0. -/
theorem restore_date_time_stops_at_minimum :
    (do
      let st ← Widget.construct overrideEnv 0 (sampleArgs .DateTimeEdit (some 1))
        earlyClockStore 0 []
      let st1 ← UserEvent.clickRestore.deliver st
      let v ← Serializer.dateTimeEdit.run st1
      pure (st.self.restore_button.map (fun (b : QPushButton) => b.enabled),
        (st1.settings 0).ToStringGlobal, (st1.settings 1).ToStringGlobal, v)) =
      .ok (some true, "-5", "true", "0") := by
  decide

/-- A slider with bounds 0 and 100 whose global value is 300: the click on the
restore button leaves the slider at its maximum, 100. -/
theorem restore_slider_stops_at_maximum :
    (do
      let st ← Widget.construct overrideEnv 0 (sampleArgs .Slider none) wideSliderStore 0 []
      let st1 ← UserEvent.clickRestore.deliver st
      let v ← Serializer.slider.run st1
      pure (st.self.restore_button.map (fun (b : QPushButton) => b.enabled),
        (st1.settings 0).ToStringGlobal, (st1.settings 0).MaxVal, v)) =
      .ok (some true, "300", "100", "100") := by
  decide

end ConfigurationShared
